import Mathlib

/-!
Appointment booking driver (`index.js`).

A shallow embedding of the script: the browser, the file system and the
CAPTCHA service are an explicit environment (`World`, `CaptchaEnv`) that fixes
what every external call answers; the script becomes a state-passing procedure
whose state holds the trace of the external calls it made and the local
variables of the main flow. An awaited call either returns or throws; the
polling loop of `solveCaptcha` takes fuel, and a run that exhausts it has no
result.
-/

namespace AppointmentBot

/-! ## Data -/

/-- Fields of `config.json` read by the script. -/
structure Config where
  lastname : String
  firstname : String
  email : String
  passportNumber : String
  province : String
  country : String
  deriving DecidableEq, Repr

/-- An `a` element of the result page: its `innerText` and its `href`. -/
structure Anchor where
  innerText : String
  href : String
  deriving DecidableEq, Repr

/-- The fields of `createTaskResponse.data` that the script reads. `errorId` is
`none` when the field is absent or not a number. -/
structure CreateTaskData where
  errorId : Option Int
  errorDescription : String
  taskId : String
  deriving DecidableEq, Repr

/-- The `solution` object of a task result; `text` is `none` when absent. -/
structure Solution where
  text : Option String
  deriving DecidableEq, Repr

/-- The fields of `taskResultResponse.data` that the script reads. `status` is
`none` when the response carries no status, `solution` is `none` when it
carries no solution object. -/
structure TaskResult where
  status : Option String
  solution : Option Solution
  deriving DecidableEq, Repr

/-- One external call made by the script, recorded when it is invoked. -/
inductive Event where
  | launch
  | newPage
  | setRequestInterception
  | onRequest
  | setUserAgent (ua : String)
  | consoleLog (args : List String)
  | consoleError (label : String) (error : String)
  | goto (url : String)
  | pageScreenshot (path : String)
  | click (selector : String)
  | waitForNavigation
  | evaluate
  | pageType (selector : String) (text : String)
  | content
  | writeFileSync (path : String) (data : String)
  | close
  | waitForSelector (selector : String)
  | elementScreenshot (path : String)
  | readFileSync (path : String)
  | createTask (body : String)
  | setTimeout (ms : Nat)
  | getTaskResult (taskId : String)
  | elementType (text : Option String)
  deriving DecidableEq, Repr

/-- What the page and the remote service answer during one call of
`solveCaptcha`. An `Except.error` is a rejected promise or a thrown error; the
data of an HTTP response is `none` when it is `null`. `getTaskResult i` is the
answer to the request number `i` (from 0) of this call. -/
structure CaptchaEnv where
  waitForImage : Except String Unit
  screenshot : Except String Unit
  readFile : Except String String
  createTask : Except String (Option CreateTaskData)
  getTaskResult : Nat → Except String (Option TaskResult)
  waitForInput : Except String Unit
  typeText : Except String Unit

/-- What the environment answers to every external call of one run. The
outcome of `page.screenshot` is given per file name and that of `page.type`
per selector (the script uses each name and each selector at most once). -/
structure World where
  launch : Except String Unit
  newPage : Except String Unit
  setRequestInterception : Except String Unit
  setUserAgent : Except String Unit
  goto1 : Except String Unit
  captcha1 : CaptchaEnv
  click1 : Except String Unit
  waitForNavigation : Except String Unit
  evaluate : Except String (List Anchor)
  gotoAvailable : Except String Unit
  pageType : String → Except String Unit
  captcha2 : CaptchaEnv
  click2 : Except String Unit
  screenshot : String → Except String Unit
  content : Except String String
  writeFile : Except String Unit
  close : Except String Unit

/-! ## Procedures -/

/-- The trace of external calls and the local variables of the main flow
(`none` while a variable is not yet bound). -/
structure State where
  trace : List Event := []
  captchaSuccess : Option Bool := none
  availableAppointments : Option (Option String) := none
  finalCaptchaSuccess : Option Bool := none
  caught : Option String := none
  deriving DecidableEq, Repr

/-- The state after the events `t`. -/
def State.push (s : State) (t : List Event) : State := { s with trace := s.trace ++ t }

/-- An abrupt completion: a thrown error, or a `return` statement. -/
inductive Abrupt where
  | thrown (error : String)
  | returned
  deriving DecidableEq, Repr

/-- A procedure: from a state, no result (out of fuel) or a completion and the
state reached. -/
def Proc (α : Type) : Type := State → Option (Except Abrupt α × State)

namespace Proc

/-- Normal completion. -/
def ret {α : Type} (a : α) : Proc α := fun s => some (.ok a, s)

/-- Sequencing: an abrupt completion skips the rest. -/
def andThen {α β : Type} (m : Proc α) (f : α → Proc β) : Proc β := fun s =>
  match m s with
  | none => none
  | some (.error e, s1) => some (.error e, s1)
  | some (.ok a, s1) => f a s1

instance : Monad Proc where
  pure := ret
  bind := andThen

/-- The statement `throw new Error(msg)`. -/
def raise {α : Type} (msg : String) : Proc α := fun s => some (.error (.thrown msg), s)

/-- The statement `return;`. -/
def returnNow {α : Type} : Proc α := fun s => some (.error .returned, s)

/-- No result: the fuel is exhausted. -/
def diverge {α : Type} : Proc α := fun _ => none

/-- An external call: the event is recorded, then the call returns what the
environment answers or throws. -/
def call {α : Type} (ev : Event) (answer : Except String α) : Proc α := fun s =>
  match answer with
  | .ok a => some (.ok a, s.push [ev])
  | .error e => some (.error (.thrown e), s.push [ev])

/-- An external call that cannot throw (`console.log`, `page.on`). -/
def emit (ev : Event) : Proc Unit := fun s => some (.ok (), s.push [ev])

/-- A change of the local variables. -/
def assign (f : State → State) : Proc Unit := fun s => some (.ok (), f s)

/-- The statement `try body catch (error) handler`: a thrown error runs the
handler, a `return` passes through. -/
def tryCatch {α : Type} (body : Proc α) (handler : String → Proc α) : Proc α := fun s =>
  match body s with
  | none => none
  | some (.error (.thrown e), s1) => handler e s1
  | some r => some r

/-- The statement `try body finally fin`: `fin` runs after every completion of
`body`; an abrupt completion of `fin` replaces that of `body`. -/
def tryFinally {α : Type} (body : Proc α) (fin : Proc Unit) : Proc α := fun s =>
  match body s with
  | none => none
  | some (r, s1) =>
    match fin s1 with
    | none => none
    | some (.error e, s2) => some (.error e, s2)
    | some (.ok _, s2) => some (r, s2)

/-- The boundary of a function call: a `return` inside the body completes the
call normally, a thrown error propagates to the caller. -/
def asFunction (body : Proc Unit) : Proc Unit := fun s =>
  match body s with
  | some (.error .returned, s1) => some (.ok (), s1)
  | r => r

end Proc

open Proc

/-! ## The script -/

/-- The method `String.prototype.includes`. -/
def includes (s needle : String) : Bool :=
  (s.data.tails.any fun t => needle.data.isPrefixOf t)

/-- The handler of `page.on('request', …)`: `true` when the request is
aborted, `false` when it continues. -/
def requestAborted (resourceType : String) : Bool :=
  ["image", "stylesheet", "font", "media", "other"].contains resourceType

/-- The function passed to `page.evaluate`: the `href` of the first anchor
whose text includes the availability text, or `null`. -/
def findLink (anchors : List Anchor) : Option String :=
  match anchors.find? (fun el => includes el.innerText "Appointments are available") with
  | some link => some link.href
  | none => none

/-- Truthiness of `availableAppointments` (a string or `null`). -/
def truthy : Option String → Bool
  | some h => h != ""
  | none => false

/-- The function `saveScreenshot(page, filename)`. -/
def saveScreenshot (w : World) (filename : String) : Proc Unit := do
  call (.pageScreenshot filename) (w.screenshot filename)
  emit (.consoleLog ["Screenshot saved as " ++ filename])

/-- The polling loop of `solveCaptcha`; `i` is the number of requests already
made and `fuel` bounds the iterations. `taskResult` starts as `null`, so the
first iteration is always made; each iteration waits 5000 ms, posts
`getTaskResult` and keeps the data of the response as `taskResult`; the loop
goes on while `taskResult` is falsy or its status is not `'ready'`. -/
def pollLoop (env : CaptchaEnv) (taskId : String) : Nat → Nat → Proc TaskResult
  | 0, _ => diverge
  | fuel + 1, i => do
    emit (.setTimeout 5000)
    let taskResult ← call (.getTaskResult taskId) (env.getTaskResult i)
    match taskResult with
    | some r => if r.status = some "ready" then pure r else pollLoop env taskId fuel (i + 1)
    | none => pollLoop env taskId fuel (i + 1)

/-- The body of the `try` block of `solveCaptcha`. -/
def solveCaptchaBody (fuel : Nat) (env : CaptchaEnv) : Proc Bool := do
  emit (.consoleLog ["Waiting for CAPTCHA element..."])
  call (.waitForSelector "img[src*=\"captcha\"]") env.waitForImage
  emit (.consoleLog ["CAPTCHA element found!"])
  call (.elementScreenshot "captcha.png") env.screenshot
  emit (.consoleLog ["CAPTCHA screenshot saved at:", "captcha.png"])
  let captchaImage ← call (.readFileSync "captcha.png") env.readFile
  let createTaskResponse ← call (.createTask captchaImage) env.createTask
  match createTaskResponse with
  -- `createTaskResponse.data.errorId` on data that is `null`
  | none => raise "TypeError: cannot read properties of null (reading errorId)"
  | some data =>
    if data.errorId ≠ some 0 then
      raise ("Error creating CAPTCHA task: " ++ data.errorDescription)
    else do
      emit (.consoleLog ["CAPTCHA task created, taskId:", data.taskId])
      let taskResult ← pollLoop env data.taskId fuel 0
      match taskResult.solution with
      -- `taskResult.solution.text` on a result without a solution
      | none => raise "TypeError: cannot read properties of undefined (reading text)"
      | some solution =>
        let solvedCaptcha := solution.text
        emit (.consoleLog ["Solved CAPTCHA:", solvedCaptcha.getD "undefined"])
        call (.waitForSelector "input[type=\"text\"]") env.waitForInput
        call (.elementType solvedCaptcha) env.typeText
        pure true

/-- The function `solveCaptcha(page)`. -/
def solveCaptcha (fuel : Nat) (env : CaptchaEnv) : Proc Bool :=
  tryCatch (solveCaptchaBody fuel env) fun error => do
    emit (.consoleError "Error solving CAPTCHA:" error)
    pure false

/-- The address of the appointment page. -/
def startUrl : String :=
  "https://service2.diplo.de/rktermin/extern/appointment_showMonth.do?locationCode=kara&realmId=967&categoryId=2801"

/-- The User-Agent string set on the page. -/
def userAgent : String :=
  "Mozilla/5.0 (Windows NT 10.0; Win64; x64) AppleWebKit/537.36 (KHTML, like Gecko) Chrome/92.0.4515.159 Safari/537.36"

/-- The selector of the submit control, clicked in steps 1 and 4. -/
def submitSelector : String := "input[type=\"submit\"]"

/-- The body of the `try` block of the main flow. -/
def mainBody (fuel : Nat) (config : Config) (w : World) : Proc Unit := do
  emit (.consoleLog ["Navigating to the appointment page..."])
  call (.goto startUrl) w.goto1
  saveScreenshot w "process1.png"
  -- Step 1
  emit (.consoleLog ["Solving CAPTCHA..."])
  let captchaSuccess ← solveCaptcha fuel w.captcha1
  assign fun s => { s with captchaSuccess := some captchaSuccess }
  if !captchaSuccess then raise "Failed to solve CAPTCHA."
  emit (.consoleLog ["CAPTCHA solved. Submitting form..."])
  call (.click submitSelector) w.click1
  saveScreenshot w "process2.png"
  call .waitForNavigation w.waitForNavigation
  -- Step 2
  emit (.consoleLog ["Checking for available appointments..."])
  let anchors ← call .evaluate w.evaluate
  let availableAppointments := findLink anchors
  assign fun s => { s with availableAppointments := some availableAppointments }
  if truthy availableAppointments then do
    emit (.consoleLog ["Available appointments found. Navigating..."])
    call (.goto (availableAppointments.getD "")) w.gotoAvailable
    saveScreenshot w "appointments_available.png"
  else do
    emit (.consoleLog ["No appointments available."])
    saveScreenshot w "no_appointments_available.png"
    returnNow
  -- Step 3
  emit (.consoleLog ["Filling out the appointment booking form..."])
  call (.pageType "#appointment_newAppointmentForm_lastname" config.lastname)
    (w.pageType "#appointment_newAppointmentForm_lastname")
  call (.pageType "#appointment_newAppointmentForm_firstname" config.firstname)
    (w.pageType "#appointment_newAppointmentForm_firstname")
  call (.pageType "#appointment_newAppointmentForm_email" config.email)
    (w.pageType "#appointment_newAppointmentForm_email")
  call (.pageType "#appointment_newAppointmentForm_emailrepeat" config.email)
    (w.pageType "#appointment_newAppointmentForm_emailrepeat")
  call (.pageType "#appointment_newAppointmentForm_fields_0__content" config.passportNumber)
    (w.pageType "#appointment_newAppointmentForm_fields_0__content")
  call (.pageType "#appointment_newAppointmentForm_fields_1__content" config.province)
    (w.pageType "#appointment_newAppointmentForm_fields_1__content")
  call (.pageType "#appointment_newAppointmentForm_fields_2__content" config.country)
    (w.pageType "#appointment_newAppointmentForm_fields_2__content")
  saveScreenshot w "process3.png"
  -- Step 4
  emit (.consoleLog ["Solving CAPTCHA again before submission..."])
  let finalCaptchaSuccess ← solveCaptcha fuel w.captcha2
  assign fun s => { s with finalCaptchaSuccess := some finalCaptchaSuccess }
  if !finalCaptchaSuccess then raise "Failed to solve final CAPTCHA."
  call (.click submitSelector) w.click2
  saveScreenshot w "process4.png"
  emit (.consoleLog ["Form submitted successfully!"])

/-- The `catch` block of the main flow. -/
def mainHandler (w : World) (error : String) : Proc Unit := do
  assign fun s => { s with caught := some error }
  emit (.consoleError "Error during the process:" error)
  let html ← call .content w.content
  call (.writeFileSync "error_page.html" html) w.writeFile
  saveScreenshot w "error_page.png"

/-- The async function run at start-up: the browser and the page are set up
before the `try` block, whose `finally` closes the browser. -/
def main (fuel : Nat) (config : Config) (w : World) : Proc Unit := asFunction do
  call .launch w.launch
  call .newPage w.newPage
  call .setRequestInterception w.setRequestInterception
  emit .onRequest
  call (.setUserAgent userAgent) w.setUserAgent
  tryFinally (tryCatch (mainBody fuel config w) (mainHandler w)) (call .close w.close)

/-- One run of the script from the initial state: `none` when the fuel is
exhausted, otherwise how the start-up function completed (an error is an
unhandled rejection) and the final state. -/
def run (fuel : Nat) (config : Config) (w : World) : Option (Except Abrupt Unit × State) :=
  main fuel config w {}

/-! ## Observations on runs -/

/-- One call of `solveCaptcha` from the initial state: how it completed and
the events it made. -/
def captchaResult (fuel : Nat) (env : CaptchaEnv) : Option (Except Abrupt Bool × List Event) :=
  (solveCaptcha fuel env {}).map fun p => (p.1, p.2.trace)

/-- The events of `n` iterations of the polling loop: each iteration is one
wait of 5000 ms followed by one `getTaskResult` request. -/
def pollEvents (taskId : String) : Nat → List Event
  | 0 => []
  | n + 1 => Event.setTimeout 5000 :: Event.getTaskResult taskId :: pollEvents taskId n

/-- A response after which the loop iterates again: data received, and it is
`null` or its status is not `'ready'`. -/
def Retries : Except String (Option TaskResult) → Prop
  | .ok none => True
  | .ok (some r) => r.status ≠ some "ready"
  | .error _ => False

instance (a : Except String (Option TaskResult)) : Decidable (Retries a) := by
  unfold Retries
  split <;> infer_instance

deriving instance DecidableEq for Except

/-- The response number `k` is the first with status `'ready'`, and every
response before it was received (no transport error). -/
def FirstReady (env : CaptchaEnv) (k : Nat) (r : TaskResult) : Prop :=
  (∀ j, j < k → Retries (env.getTaskResult j)) ∧
    env.getTaskResult k = .ok (some r) ∧ r.status = some "ready"

instance (env : CaptchaEnv) (k : Nat) (r : TaskResult) : Decidable (FirstReady env k r) := by
  unfold FirstReady
  infer_instance

/-- A procedure that only appends to the trace, and does so independently of the state. -/
def Framed {α : Type} (m : Proc α) : Prop :=
  ∀ s, m s = (m {}).map fun p => (p.1, s.push p.2.trace)

/-- The events of `solveCaptcha` up to the start of the polling loop. -/
def beforePoll (captchaImage taskId : String) : List Event :=
  [.consoleLog ["Waiting for CAPTCHA element..."], .waitForSelector "img[src*=\"captcha\"]",
   .consoleLog ["CAPTCHA element found!"], .elementScreenshot "captcha.png",
   .consoleLog ["CAPTCHA screenshot saved at:", "captcha.png"], .readFileSync "captcha.png",
   .createTask captchaImage, .consoleLog ["CAPTCHA task created, taskId:", taskId]]

/-- The messages that `solveCaptcha` logs (the first argument of `console.log`). -/
def captchaMessages : List String :=
  ["Waiting for CAPTCHA element...", "CAPTCHA element found!", "CAPTCHA screenshot saved at:",
   "CAPTCHA task created, taskId:", "Solved CAPTCHA:"]

/-- The kinds of event that `solveCaptcha` makes. -/
def Event.byCaptcha : Event → Bool
  | .consoleLog args => captchaMessages.contains (args.headD "")
  | .consoleError _ _ => true
  | .waitForSelector _ => true
  | .elementScreenshot _ => true
  | .readFileSync _ => true
  | .createTask _ => true
  | .setTimeout _ => true
  | .getTaskResult _ => true
  | .elementType _ => true
  | _ => false

/-- The `page.type` calls of a trace: selector and text, in order. -/
def typedFields (t : List Event) : List (String × String) :=
  t.filterMap fun
    | .pageType selector text => some (selector, text)
    | _ => none

/-- The files written by the `page.screenshot` calls of a trace, in order. -/
def screenshots (t : List Event) : List String :=
  t.filterMap fun
    | .pageScreenshot path => some path
    | _ => none

/-- The selectors clicked in a trace, in order. -/
def clicks (t : List Event) : List String :=
  t.filterMap fun
    | .click selector => some selector
    | _ => none

/-- The addresses the page navigated to in a trace, in order. -/
def gotos (t : List Event) : List String :=
  t.filterMap fun
    | .goto url => some url
    | _ => none

/-- The calls of a trace that act on the page, the file system or the
browser: navigation, page screenshots, clicks, typing, file writes and
`browser.close()`; logging, waiting and the exchange with the CAPTCHA
service are left out. -/
def milestones (t : List Event) : List Event :=
  t.filter fun
    | .goto _ => true
    | .pageScreenshot _ => true
    | .click _ => true
    | .pageType _ _ => true
    | .elementType _ => true
    | .writeFileSync _ _ => true
    | .close => true
    | _ => false

/-- The number of `browser.close()` calls in a trace. -/
def closes (t : List Event) : Nat :=
  (t.filter fun
    | .close => true
    | _ => false).length

/-- The texts typed into the CAPTCHA input field in a trace, in order. -/
def captchaTexts (t : List Event) : List (Option String) :=
  t.filterMap fun
    | .elementType text => some text
    | _ => none

/-- The task identifiers of the `getTaskResult` requests of a trace, in order. -/
def taskRequests (t : List Event) : List String :=
  t.filterMap fun
    | .getTaskResult taskId => some taskId
    | _ => none

/-- The number of calls of `solveCaptcha` in a trace: each call starts by
waiting for the CAPTCHA image. -/
def captchaCalls (t : List Event) : Nat :=
  (t.filter fun
    | .waitForSelector selector => selector == "img[src*=\"captcha\"]"
    | _ => false).length

/-- The booking-form fields and the configured value of each, in the order of
the script. -/
def expectedForm (config : Config) : List (String × String) :=
  [("#appointment_newAppointmentForm_lastname", config.lastname),
   ("#appointment_newAppointmentForm_firstname", config.firstname),
   ("#appointment_newAppointmentForm_email", config.email),
   ("#appointment_newAppointmentForm_emailrepeat", config.email),
   ("#appointment_newAppointmentForm_fields_0__content", config.passportNumber),
   ("#appointment_newAppointmentForm_fields_1__content", config.province),
   ("#appointment_newAppointmentForm_fields_2__content", config.country)]

/-- The calls made before the `try` block when none of them throws. -/
def setupEvents : List Event :=
  [.launch, .newPage, .setRequestInterception, .onRequest, .setUserAgent userAgent]

/-- The calls made by the `catch` block for the error `error`. -/
def handlerEvents (w : World) (error : String) : List Event :=
  .consoleError "Error during the process:" error :: .content ::
    match w.content with
    | .error _ => []
    | .ok html =>
      .writeFileSync "error_page.html" html ::
        match w.writeFile with
        | .error _ => []
        | .ok _ =>
          .pageScreenshot "error_page.png" ::
            match w.screenshot "error_page.png" with
            | .error _ => []
            | .ok _ => [.consoleLog ["Screenshot saved as error_page.png"]]

/-- The number of the first response, among those numbered `i` to
`i + fuel - 1`, that does not ask for a retry. -/
def firstStopFrom (env : CaptchaEnv) : Nat → Nat → Option Nat
  | 0, _ => none
  | fuel + 1, i =>
    if Retries (env.getTaskResult i) then firstStopFrom env fuel (i + 1) else some i

/-- The number of the first response, among the first `fuel` ones, that does
not ask for a retry. -/
def firstStop (env : CaptchaEnv) (fuel : Nat) : Option Nat := firstStopFrom env fuel 0

/-! ## Sample environments -/

/-- A service that answers `processing` twice and then `ready` with the text `AB12`. -/
def readyEnv : CaptchaEnv where
  waitForImage := .ok ()
  screenshot := .ok ()
  readFile := .ok "aGVsbG8="
  createTask := .ok (some { errorId := some 0, errorDescription := "", taskId := "7" })
  getTaskResult := fun i =>
    if i < 2 then .ok (some { status := some "processing", solution := none })
    else .ok (some { status := some "ready", solution := some { text := some "AB12" } })
  waitForInput := .ok ()
  typeText := .ok ()

/-- A service that answers `processing` for ever. -/
def hangEnv : CaptchaEnv :=
  { readyEnv with getTaskResult := fun _ => .ok (some { status := some "processing", solution := none }) }

/-- A page on which the CAPTCHA image never appears. -/
def noImageEnv : CaptchaEnv :=
  { readyEnv with waitForImage := .error "TimeoutError: waiting for selector failed" }

/-- The configuration of the end-to-end scenario. -/
def janeDoe : Config :=
  { lastname := "Doe", firstname := "Jane", email := "j@example.com", passportNumber := "X123",
    province := "Foo", country := "Bar" }

/-- A run in which every call succeeds and the availability link is present. -/
def okWorld : World where
  launch := .ok ()
  newPage := .ok ()
  setRequestInterception := .ok ()
  setUserAgent := .ok ()
  goto1 := .ok ()
  captcha1 := readyEnv
  click1 := .ok ()
  waitForNavigation := .ok ()
  evaluate := .ok [{ innerText := "Imprint", href := "https://service2.diplo.de/imprint" },
    { innerText := "Appointments are available", href := "https://service2.diplo.de/book" }]
  gotoAvailable := .ok ()
  pageType := fun _ => .ok ()
  captcha2 := readyEnv
  click2 := .ok ()
  screenshot := fun _ => .ok ()
  content := .ok "<html></html>"
  writeFile := .ok ()
  close := .ok ()

/-- A first CAPTCHA that cannot be solved: the image never appears. -/
def captchaFailWorld : World := { okWorld with captcha1 := noImageEnv }

/-- A second CAPTCHA that cannot be solved: the image never appears. -/
def finalCaptchaFailWorld : World := { okWorld with captcha2 := noImageEnv }

/-- A result page without the availability link. -/
def noLinkWorld : World :=
  { okWorld with
    evaluate := .ok [{ innerText := "Imprint", href := "https://service2.diplo.de/imprint" }] }

/-- A result page without the availability link, and a disk on which the
screenshot of that page cannot be written. -/
def noLinkShotFailWorld : World :=
  { noLinkWorld with
    screenshot := fun filename =>
      if filename = "no_appointments_available.png" then .error "ENOSPC: no space left on device"
      else .ok () }

/-- A booking form without the last-name field. -/
def typeFailWorld : World :=
  { okWorld with
    pageType := fun selector =>
      if selector = "#appointment_newAppointmentForm_lastname" then
        .error "No element found for selector: #appointment_newAppointmentForm_lastname"
      else .ok () }

/-- A page that crashes during the first navigation: `page.goto` and then
`page.content` throw. -/
def crashedPageWorld : World :=
  { okWorld with
    goto1 := .error "Navigation failed because page crashed!",
    content := .error "Protocol error (Runtime.callFunctionOn): Target closed." }

/-- A browser that starts but cannot open a page. -/
def newPageFailWorld : World :=
  { okWorld with newPage := .error "Protocol error (Target.createTarget): Target closed." }

/-- A result page whose availability link has no address. -/
def emptyHrefWorld : World :=
  { okWorld with evaluate := .ok [{ innerText := "Appointments are available", href := "" }] }

/-- A service that rejects the task. -/
def rejectedTaskEnv : CaptchaEnv :=
  { readyEnv with
    createTask := .ok (some
      { errorId := some 1, errorDescription := "ERROR_KEY_DOES_NOT_EXIST", taskId := "" }) }

/-- A service that is unreachable after one `processing` answer. -/
def pollErrorEnv : CaptchaEnv :=
  { readyEnv with
    getTaskResult := fun i =>
      if i < 1 then .ok (some { status := some "processing", solution := none })
      else .error "ECONNRESET" }

/-- A service that is unreachable from the start. -/
def createTaskErrorEnv : CaptchaEnv :=
  { readyEnv with createTask := .error "ECONNREFUSED" }

/-! ## Rules of procedures -/

theorem Proc.bind_apply {α β : Type} (m : Proc α) (f : α → Proc β) (s : State) :
    (m >>= f) s = match m s with
      | none => none
      | some (.error e, s1) => some (.error e, s1)
      | some (.ok a, s1) => f a s1 := rfl

theorem Proc.pure_apply {α : Type} (a : α) (s : State) : (pure a : Proc α) s = some (.ok a, s) := rfl

theorem Proc.raise_apply {α : Type} (msg : String) (s : State) :
    (raise msg : Proc α) s = some (.error (.thrown msg), s) := rfl

theorem Proc.returnNow_apply {α : Type} (s : State) :
    (returnNow : Proc α) s = some (.error .returned, s) := rfl

theorem Proc.emit_apply (ev : Event) (s : State) : emit ev s = some (.ok (), s.push [ev]) := rfl

theorem Proc.call_apply {α : Type} (ev : Event) (r : Except String α) (s : State) :
    call ev r s = match r with
      | .ok a => some (.ok a, s.push [ev])
      | .error e => some (.error (.thrown e), s.push [ev]) := by
  cases r <;> rfl

theorem Proc.tryCatch_apply {α : Type} (m : Proc α) (h : String → Proc α) (s : State) :
    tryCatch m h s = match m s with
      | none => none
      | some (.error (.thrown e), s1) => h e s1
      | some r => some r := rfl

theorem Proc.tryFinally_apply {α : Type} (m : Proc α) (fin : Proc Unit) (s : State) :
    tryFinally m fin s = match m s with
      | none => none
      | some (r, s1) =>
        match fin s1 with
        | none => none
        | some (.error e, s2) => some (.error e, s2)
        | some (.ok _, s2) => some (r, s2) := rfl

theorem Proc.asFunction_apply (m : Proc Unit) (s : State) :
    asFunction m s = match m s with
      | some (.error .returned, s1) => some (.ok (), s1)
      | r => r := rfl

theorem Proc.bind_call {α β : Type} (ev : Event) (r : Except String α) (f : α → Proc β) (s : State) :
    (call ev r >>= f) s = match r with
      | .ok a => f a (s.push [ev])
      | .error e => some (.error (.thrown e), s.push [ev]) := by
  cases r <;> rfl

theorem Proc.bind_emit {β : Type} (ev : Event) (f : Unit → Proc β) (s : State) :
    (emit ev >>= f) s = f () (s.push [ev]) := rfl

theorem Proc.bind_assign {β : Type} (g : State → State) (f : Unit → Proc β) (s : State) :
    (assign g >>= f) s = f () (g s) := rfl

theorem Proc.bind_assoc {α β γ : Type} (m : Proc α) (f : α → Proc β) (g : β → Proc γ) :
    (m >>= f) >>= g = m >>= fun a => f a >>= g := by
  funext s
  simp only [Proc.bind_apply]
  cases m s with
  | none => rfl
  | some p =>
    obtain ⟨r, s1⟩ := p
    cases r <;> rfl

theorem Proc.raise_bind {α β : Type} (msg : String) (f : α → Proc β) :
    ((raise msg : Proc α) >>= f) = raise msg := rfl

theorem Proc.returnNow_bind {α β : Type} (f : α → Proc β) :
    ((returnNow : Proc α) >>= f) = returnNow := rfl

theorem Proc.pure_bind {α β : Type} (a : α) (f : α → Proc β) :
    ((pure a : Proc α) >>= f) = f a := rfl

/-! ## Rules of states -/

theorem State.push_push (s : State) (t u : List Event) : (s.push t).push u = s.push (t ++ u) := by
  simp [State.push, List.append_assoc]

@[simp] theorem State.push_trace (s : State) (t : List Event) : (s.push t).trace = s.trace ++ t := rfl

@[simp] theorem State.push_captchaSuccess (s : State) (t : List Event) :
    (s.push t).captchaSuccess = s.captchaSuccess := rfl

@[simp] theorem State.push_availableAppointments (s : State) (t : List Event) :
    (s.push t).availableAppointments = s.availableAppointments := rfl

@[simp] theorem State.push_finalCaptchaSuccess (s : State) (t : List Event) :
    (s.push t).finalCaptchaSuccess = s.finalCaptchaSuccess := rfl

@[simp] theorem State.push_caught (s : State) (t : List Event) : (s.push t).caught = s.caught := rfl

theorem State.push_nil (s : State) : s.push [] = s := by
  simp [State.push]

/-! ## Procedures that only extend the trace -/

theorem Framed.pure {α : Type} (a : α) : Framed (pure a : Proc α) := by
  intro s; simp [Proc.pure_apply, State.push_nil]

theorem Framed.raise {α : Type} (msg : String) : Framed (raise msg : Proc α) := by
  intro s; simp [Proc.raise_apply, State.push_nil]

theorem Framed.diverge {α : Type} : Framed (diverge : Proc α) := by
  intro s; simp [Proc.diverge]

theorem Framed.emit (ev : Event) : Framed (emit ev) := by
  intro s; simp [Proc.emit_apply]

theorem Framed.call {α : Type} (ev : Event) (r : Except String α) : Framed (call ev r) := by
  intro s; cases r <;> simp [Proc.call_apply]

theorem Framed.bind {α β : Type} {m : Proc α} {f : α → Proc β} (hm : Framed m)
    (hf : ∀ a, Framed (f a)) : Framed (m >>= f) := by
  intro s
  rw [Proc.bind_apply, Proc.bind_apply, hm s]
  cases h : m {} with
  | none => simp
  | some p =>
    obtain ⟨r, s1⟩ := p
    cases r with
    | error e => simp
    | ok a =>
      simp only [Option.map_some']
      rw [hf a, hf a s1]
      cases h2 : f a {} with
      | none => simp
      | some q => simp [State.push_push, List.append_assoc]

theorem Framed.tryCatch {α : Type} {m : Proc α} {f : String → Proc α} (hm : Framed m)
    (hf : ∀ e, Framed (f e)) : Framed (tryCatch m f) := by
  intro s
  rw [Proc.tryCatch_apply, Proc.tryCatch_apply, hm s]
  cases h : m {} with
  | none => simp
  | some p =>
    obtain ⟨r, s1⟩ := p
    cases r with
    | ok a => simp
    | error e =>
      cases e with
      | returned => simp
      | thrown e =>
        simp only [Option.map_some']
        rw [hf e, hf e s1]
        cases h2 : f e {} with
        | none => simp
        | some q => simp [State.push_push, List.append_assoc]

theorem pollLoop_framed (env : CaptchaEnv) (taskId : String) (fuel i : Nat) :
    Framed (pollLoop env taskId fuel i) := by
  induction fuel generalizing i with
  | zero => exact Framed.diverge
  | succ n ih =>
    unfold pollLoop
    refine Framed.bind (Framed.emit _) fun _ => Framed.bind (Framed.call _ _) fun r => ?_
    cases r with
    | none => exact ih _
    | some r =>
      dsimp only
      split
      · exact Framed.pure _
      · exact ih _

theorem solveCaptcha_framed (fuel : Nat) (env : CaptchaEnv) : Framed (solveCaptcha fuel env) := by
  unfold solveCaptcha
  refine Framed.tryCatch ?_ fun e => Framed.bind (Framed.emit _) fun _ => Framed.pure _
  unfold solveCaptchaBody
  refine Framed.bind (Framed.emit _) fun _ => Framed.bind (Framed.call _ _) fun _ =>
    Framed.bind (Framed.emit _) fun _ => Framed.bind (Framed.call _ _) fun _ =>
    Framed.bind (Framed.emit _) fun _ => Framed.bind (Framed.call _ _) fun img =>
    Framed.bind (Framed.call _ _) fun r => ?_
  cases r with
  | none => exact Framed.raise _
  | some data =>
    dsimp only
    split
    · exact Framed.raise _
    · refine Framed.bind (Framed.emit _) fun _ => Framed.bind (pollLoop_framed _ _ _ _) fun tr => ?_
      cases h : tr.solution with
      | none => simp only [h]; exact Framed.raise _
      | some sol =>
        simp only [h]
        exact Framed.bind (Framed.emit _) fun _ => Framed.bind (Framed.call _ _) fun _ =>
          Framed.bind (Framed.call _ _) fun _ => Framed.pure _

/-- A call of `solveCaptcha` from any state is the call from the initial state
with its events appended. -/
theorem solveCaptcha_apply (fuel : Nat) (env : CaptchaEnv) (s : State) :
    solveCaptcha fuel env s =
      (captchaResult fuel env).map fun p => (p.1, s.push p.2) := by
  rw [solveCaptcha_framed fuel env s, captchaResult, Option.map_map]
  rfl

theorem Proc.bind_solveCaptcha {β : Type} (fuel : Nat) (env : CaptchaEnv) (f : Bool → Proc β)
    (s : State) :
    (solveCaptcha fuel env >>= f) s =
      match captchaResult fuel env with
      | none => none
      | some (.error e, tc) => some (.error e, s.push tc)
      | some (.ok b, tc) => f b (s.push tc) := by
  rw [Proc.bind_apply, solveCaptcha_apply]
  cases captchaResult fuel env with
  | none => rfl
  | some p =>
    obtain ⟨r, tc⟩ := p
    cases r <;> rfl

/-! ## The polling loop -/

theorem pollLoop_succ (env : CaptchaEnv) (taskId : String) (fuel i : Nat) (s : State) :
    pollLoop env taskId (fuel + 1) i s =
      match env.getTaskResult i with
      | .error e => some (.error (.thrown e), s.push (pollEvents taskId 1))
      | .ok none => pollLoop env taskId fuel (i + 1) (s.push (pollEvents taskId 1))
      | .ok (some r) =>
        if r.status = some "ready" then some (.ok r, s.push (pollEvents taskId 1))
        else pollLoop env taskId fuel (i + 1) (s.push (pollEvents taskId 1)) := by
  rw [pollLoop]
  simp only [Proc.bind_apply, Proc.emit, Proc.call, State.push, pollEvents,
    List.append_assoc, List.singleton_append, List.append_nil, List.nil_append, List.cons_append]
  cases h : env.getTaskResult i with
  | error e => simp
  | ok d =>
    cases d with
    | none => simp
    | some r =>
      simp only
      split <;> simp [Proc.pure_apply, *]

/-- While every response of the first `fuel` ones asks for a retry, the loop has no result. -/
theorem pollLoop_retries (env : CaptchaEnv) (taskId : String) (fuel i : Nat) (s : State)
    (h : ∀ j, j < fuel → Retries (env.getTaskResult (i + j))) :
    pollLoop env taskId fuel i s = none := by
  induction fuel generalizing i s with
  | zero => rfl
  | succ n ih =>
    rw [pollLoop_succ]
    have h0 := h 0 (Nat.succ_pos n)
    have hn : ∀ j, j < n → Retries (env.getTaskResult (i + 1 + j)) := fun j hj => by
      have := h (j + 1) (Nat.succ_lt_succ hj)
      rwa [show i + 1 + j = i + (j + 1) by omega]
    rw [Nat.add_zero] at h0
    cases hi : env.getTaskResult i with
    | error e => rw [hi] at h0; exact h0.elim
    | ok d =>
      cases d with
      | none => exact ih _ _ hn
      | some r =>
        rw [hi] at h0
        simp only [Retries] at h0
        simp only [h0, if_false]
        exact ih _ _ hn

/-- With the first response that does not ask for a retry at `i + k`, the loop
makes `k + 1` iterations and ends on that response. -/
theorem pollLoop_stops (env : CaptchaEnv) (taskId : String) (fuel i k : Nat) (s : State)
    (hk : k < fuel) (h : ∀ j, j < k → Retries (env.getTaskResult (i + j)))
    (hstop : ¬ Retries (env.getTaskResult (i + k))) :
    pollLoop env taskId fuel i s =
      match env.getTaskResult (i + k) with
      | .error e => some (.error (.thrown e), s.push (pollEvents taskId (k + 1)))
      | .ok (some r) => some (.ok r, s.push (pollEvents taskId (k + 1)))
      | .ok none => none := by
  induction k generalizing fuel i s with
  | zero =>
    obtain ⟨n, rfl⟩ : ∃ n, fuel = n + 1 := ⟨fuel - 1, by omega⟩
    rw [pollLoop_succ]
    simp only [Nat.add_zero, Nat.zero_add] at hstop ⊢
    cases hi : env.getTaskResult i with
    | error e => rfl
    | ok d =>
      cases d with
      | none => rw [hi] at hstop; exact (hstop trivial).elim
      | some r =>
        rw [hi] at hstop
        simp only [Retries, ne_eq, not_not] at hstop
        simp [hstop]
  | succ k ih =>
    obtain ⟨n, rfl⟩ : ∃ n, fuel = n + 1 := ⟨fuel - 1, by omega⟩
    rw [pollLoop_succ]
    have h0 := h 0 (Nat.succ_pos k)
    rw [Nat.add_zero] at h0
    have hrec := ih n (i + 1) (s.push (pollEvents taskId 1)) (by omega)
      (fun j hj => by
        have := h (j + 1) (Nat.succ_lt_succ hj)
        rwa [show i + 1 + j = i + (j + 1) by omega])
      (by rwa [show i + 1 + k = i + (k + 1) by omega])
    rw [show i + 1 + k = i + (k + 1) by omega] at hrec
    have hpush : (s.push (pollEvents taskId 1)).push (pollEvents taskId (k + 1)) =
        s.push (pollEvents taskId (k + 1 + 1)) := by
      rw [State.push_push]; rfl
    rw [hpush] at hrec
    cases hi : env.getTaskResult i with
    | error e => rw [hi] at h0; exact h0.elim
    | ok d =>
      cases d with
      | none => exact hrec
      | some r =>
        rw [hi] at h0
        simp only [Retries] at h0
        simp only [h0, if_false]
        exact hrec

/-! ## The function `solveCaptcha` -/

theorem solveCaptcha_eq (fuel : Nat) (env : CaptchaEnv) (s : State) :
    solveCaptcha fuel env s =
      match env.waitForImage with
      | .error e => some (.ok false, s.push
          [.consoleLog ["Waiting for CAPTCHA element..."], .waitForSelector "img[src*=\"captcha\"]",
           .consoleError "Error solving CAPTCHA:" e])
      | .ok _ =>
      match env.screenshot with
      | .error e => some (.ok false, s.push
          [.consoleLog ["Waiting for CAPTCHA element..."], .waitForSelector "img[src*=\"captcha\"]",
           .consoleLog ["CAPTCHA element found!"], .elementScreenshot "captcha.png",
           .consoleError "Error solving CAPTCHA:" e])
      | .ok _ =>
      match env.readFile with
      | .error e => some (.ok false, s.push
          [.consoleLog ["Waiting for CAPTCHA element..."], .waitForSelector "img[src*=\"captcha\"]",
           .consoleLog ["CAPTCHA element found!"], .elementScreenshot "captcha.png",
           .consoleLog ["CAPTCHA screenshot saved at:", "captcha.png"], .readFileSync "captcha.png",
           .consoleError "Error solving CAPTCHA:" e])
      | .ok captchaImage =>
      match env.createTask with
      | .error e => some (.ok false, s.push
          [.consoleLog ["Waiting for CAPTCHA element..."], .waitForSelector "img[src*=\"captcha\"]",
           .consoleLog ["CAPTCHA element found!"], .elementScreenshot "captcha.png",
           .consoleLog ["CAPTCHA screenshot saved at:", "captcha.png"], .readFileSync "captcha.png",
           .createTask captchaImage, .consoleError "Error solving CAPTCHA:" e])
      | .ok none => some (.ok false, s.push
          [.consoleLog ["Waiting for CAPTCHA element..."], .waitForSelector "img[src*=\"captcha\"]",
           .consoleLog ["CAPTCHA element found!"], .elementScreenshot "captcha.png",
           .consoleLog ["CAPTCHA screenshot saved at:", "captcha.png"], .readFileSync "captcha.png",
           .createTask captchaImage,
           .consoleError "Error solving CAPTCHA:"
             "TypeError: cannot read properties of null (reading errorId)"])
      | .ok (some data) =>
        if data.errorId ≠ some 0 then some (.ok false, s.push
          [.consoleLog ["Waiting for CAPTCHA element..."], .waitForSelector "img[src*=\"captcha\"]",
           .consoleLog ["CAPTCHA element found!"], .elementScreenshot "captcha.png",
           .consoleLog ["CAPTCHA screenshot saved at:", "captcha.png"], .readFileSync "captcha.png",
           .createTask captchaImage,
           .consoleError "Error solving CAPTCHA:"
             ("Error creating CAPTCHA task: " ++ data.errorDescription)])
        else
        match pollLoop env data.taskId fuel 0 (s.push (beforePoll captchaImage data.taskId)) with
        | none => none
        | some (.error (.thrown e), s1) =>
          some (.ok false, s1.push [.consoleError "Error solving CAPTCHA:" e])
        | some (.error .returned, s1) => some (.error .returned, s1)
        | some (.ok taskResult, s1) =>
          match taskResult.solution with
          | none => some (.ok false, s1.push [.consoleError "Error solving CAPTCHA:"
              "TypeError: cannot read properties of undefined (reading text)"])
          | some solution =>
            match env.waitForInput with
            | .error e => some (.ok false, s1.push
                [.consoleLog ["Solved CAPTCHA:", solution.text.getD "undefined"],
                 .waitForSelector "input[type=\"text\"]", .consoleError "Error solving CAPTCHA:" e])
            | .ok _ =>
              match env.typeText with
              | .error e => some (.ok false, s1.push
                  [.consoleLog ["Solved CAPTCHA:", solution.text.getD "undefined"],
                   .waitForSelector "input[type=\"text\"]", .elementType solution.text,
                   .consoleError "Error solving CAPTCHA:" e])
              | .ok _ => some (.ok true, s1.push
                  [.consoleLog ["Solved CAPTCHA:", solution.text.getD "undefined"],
                   .waitForSelector "input[type=\"text\"]", .elementType solution.text]) := by
  unfold solveCaptcha solveCaptchaBody
  simp only [Proc.tryCatch_apply, Proc.bind_call, Proc.bind_emit, Proc.raise_apply, Proc.pure_apply,
    State.push_push, List.singleton_append, List.cons_append, List.nil_append]
  cases env.waitForImage with
  | error e => simp [State.push_push]
  | ok _ =>
  cases env.screenshot with
  | error e => simp [State.push_push]
  | ok _ =>
  cases env.readFile with
  | error e => simp [State.push_push]
  | ok img =>
  cases env.createTask with
  | error e => simp [State.push_push]
  | ok d =>
  cases d with
  | none => simp [State.push_push, Proc.raise_apply]
  | some data =>
  by_cases hE : data.errorId = some 0
  · simp only [hE, ne_eq, not_true_eq_false, if_false, Proc.bind_emit]
    simp only [Proc.bind_apply, State.push_push, List.singleton_append, List.cons_append,
      List.nil_append, beforePoll]
    cases pollLoop env data.taskId fuel 0 _ with
    | none => simp
    | some p =>
      obtain ⟨r, s1⟩ := p
      cases r with
      | error a => cases a <;> simp [State.push_push]
      | ok tr =>
        simp only
        cases tr.solution with
        | none => simp [State.push_push, Proc.raise_apply]
        | some sol =>
          simp only [Proc.bind_emit, Proc.bind_call, Proc.pure_apply, State.push_push,
            List.singleton_append, List.cons_append, List.nil_append]
          cases env.waitForInput with
          | error e => simp [State.push_push]
          | ok _ =>
            cases env.typeText with
            | error e => simp [State.push_push]
            | ok _ => simp [State.push_push]
  · simp [hE, Proc.raise_apply, State.push_push]


/-! ## Rules of the observations -/

@[simp] theorem typedFields_nil : typedFields [] = [] := rfl

@[simp] theorem typedFields_cons (ev : Event) (t : List Event) :
    typedFields (ev :: t) =
      (match ev with
        | .pageType selector text => [(selector, text)]
        | _ => []) ++ typedFields t := by
  cases ev <;> simp [typedFields]

@[simp] theorem typedFields_append (t u : List Event) :
    typedFields (t ++ u) = typedFields t ++ typedFields u := by
  simp [typedFields]

@[simp] theorem screenshots_nil : screenshots [] = [] := rfl

@[simp] theorem screenshots_cons (ev : Event) (t : List Event) :
    screenshots (ev :: t) =
      (match ev with
        | .pageScreenshot path => [path]
        | _ => []) ++ screenshots t := by
  cases ev <;> simp [screenshots]

@[simp] theorem screenshots_append (t u : List Event) :
    screenshots (t ++ u) = screenshots t ++ screenshots u := by
  simp [screenshots]

@[simp] theorem clicks_nil : clicks [] = [] := rfl

@[simp] theorem clicks_cons (ev : Event) (t : List Event) :
    clicks (ev :: t) =
      (match ev with
        | .click selector => [selector]
        | _ => []) ++ clicks t := by
  cases ev <;> simp [clicks]

@[simp] theorem clicks_append (t u : List Event) : clicks (t ++ u) = clicks t ++ clicks u := by
  simp [clicks]

@[simp] theorem gotos_nil : gotos [] = [] := rfl

@[simp] theorem gotos_cons (ev : Event) (t : List Event) :
    gotos (ev :: t) =
      (match ev with
        | .goto url => [url]
        | _ => []) ++ gotos t := by
  cases ev <;> simp [gotos]

@[simp] theorem gotos_append (t u : List Event) : gotos (t ++ u) = gotos t ++ gotos u := by
  simp [gotos]

@[simp] theorem captchaTexts_nil : captchaTexts [] = [] := rfl

@[simp] theorem captchaTexts_cons (ev : Event) (t : List Event) :
    captchaTexts (ev :: t) =
      (match ev with
        | .elementType text => [text]
        | _ => []) ++ captchaTexts t := by
  cases ev <;> simp [captchaTexts]

@[simp] theorem captchaTexts_append (t u : List Event) :
    captchaTexts (t ++ u) = captchaTexts t ++ captchaTexts u := by
  simp [captchaTexts]

@[simp] theorem taskRequests_nil : taskRequests [] = [] := rfl

@[simp] theorem taskRequests_cons (ev : Event) (t : List Event) :
    taskRequests (ev :: t) =
      (match ev with
        | .getTaskResult taskId => [taskId]
        | _ => []) ++ taskRequests t := by
  cases ev <;> simp [taskRequests]

@[simp] theorem taskRequests_append (t u : List Event) :
    taskRequests (t ++ u) = taskRequests t ++ taskRequests u := by
  simp [taskRequests]

@[simp] theorem milestones_nil : milestones [] = [] := rfl

@[simp] theorem milestones_cons (ev : Event) (t : List Event) :
    milestones (ev :: t) =
      (match ev with
        | .goto _ => [ev]
        | .pageScreenshot _ => [ev]
        | .click _ => [ev]
        | .pageType _ _ => [ev]
        | .elementType _ => [ev]
        | .writeFileSync _ _ => [ev]
        | .close => [ev]
        | _ => []) ++ milestones t := by
  cases ev <;> simp [milestones]

@[simp] theorem milestones_append (t u : List Event) :
    milestones (t ++ u) = milestones t ++ milestones u := by
  simp [milestones]

@[simp] theorem closes_nil : closes [] = 0 := rfl

@[simp] theorem closes_cons (ev : Event) (t : List Event) :
    closes (ev :: t) =
      (match ev with
        | .close => 1
        | _ => 0) + closes t := by
  cases ev <;> simp [closes, Nat.add_comm]

@[simp] theorem closes_append (t u : List Event) : closes (t ++ u) = closes t + closes u := by
  simp [closes]

@[simp] theorem captchaCalls_nil : captchaCalls [] = 0 := rfl

@[simp] theorem captchaCalls_cons (ev : Event) (t : List Event) :
    captchaCalls (ev :: t) =
      (match ev with
        | .waitForSelector selector => if selector = "img[src*=\"captcha\"]" then 1 else 0
        | _ => 0) + captchaCalls t := by
  cases ev <;> simp [captchaCalls, Nat.add_comm]
  split <;> simp_all [Nat.add_comm]

@[simp] theorem captchaCalls_append (t u : List Event) :
    captchaCalls (t ++ u) = captchaCalls t + captchaCalls u := by
  simp [captchaCalls]

theorem firstStopFrom_some (env : CaptchaEnv) (fuel i k : Nat)
    (h : firstStopFrom env fuel i = some k) :
    i ≤ k ∧ k < i + fuel ∧ ¬ Retries (env.getTaskResult k) ∧
      ∀ j, i ≤ j → j < k → Retries (env.getTaskResult j) := by
  induction fuel generalizing i with
  | zero => simp [firstStopFrom] at h
  | succ n ih =>
    rw [firstStopFrom] at h
    split at h
    · rename_i hr
      obtain ⟨h1, h2, h3, h4⟩ := ih (i + 1) h
      refine ⟨by omega, by omega, h3, fun j hj hjk => ?_⟩
      by_cases hji : j = i
      · rw [hji]; exact hr
      · exact h4 j (by omega) hjk
    · rename_i hr
      simp only [Option.some.injEq] at h
      subst h
      exact ⟨le_refl _, by omega, hr, fun j hj hjk => by omega⟩

theorem firstStopFrom_none (env : CaptchaEnv) (fuel i : Nat)
    (h : firstStopFrom env fuel i = none) :
    ∀ j, j < fuel → Retries (env.getTaskResult (i + j)) := by
  induction fuel generalizing i with
  | zero => intro j hj; omega
  | succ n ih =>
    rw [firstStopFrom] at h
    split at h
    · rename_i hr
      intro j hj
      cases j with
      | zero => simpa using hr
      | succ j =>
        have := ih (i + 1) h j (by omega)
        rwa [show i + 1 + j = i + (j + 1) by omega] at this
    · simp at h

theorem firstStop_some (env : CaptchaEnv) (fuel k : Nat) (h : firstStop env fuel = some k) :
    k < fuel ∧ ¬ Retries (env.getTaskResult k) ∧ ∀ j, j < k → Retries (env.getTaskResult j) := by
  obtain ⟨_, h2, h3, h4⟩ := firstStopFrom_some env fuel 0 k h
  exact ⟨by omega, h3, fun j hj => h4 j (Nat.zero_le j) hj⟩

theorem firstStop_none (env : CaptchaEnv) (fuel : Nat) (h : firstStop env fuel = none) :
    ∀ j, j < fuel → Retries (env.getTaskResult j) := by
  intro j hj
  simpa using firstStopFrom_none env fuel 0 h j hj

/-- Given the first response that does not ask for a retry, the value of `firstStop`. -/
theorem firstStop_eq (env : CaptchaEnv) (fuel k : Nat) (hk : k < fuel)
    (hstop : ¬ Retries (env.getTaskResult k)) (h : ∀ j, j < k → Retries (env.getTaskResult j)) :
    firstStop env fuel = some k := by
  cases hf : firstStop env fuel with
  | none => exact absurd (firstStop_none env fuel hf k hk) hstop
  | some k2 =>
    obtain ⟨h1, h2, h3⟩ := firstStop_some env fuel k2 hf
    rcases Nat.lt_trichotomy k k2 with hlt | heq | hgt
    · exact absurd (h3 k hlt) hstop
    · rw [heq]
    · exact absurd (h k2 hgt) h2

theorem firstStop_eq_none (env : CaptchaEnv) (fuel : Nat)
    (h : ∀ j, j < fuel → Retries (env.getTaskResult j)) : firstStop env fuel = none := by
  cases hf : firstStop env fuel with
  | none => rfl
  | some k =>
    obtain ⟨h1, h2, _⟩ := firstStop_some env fuel k hf
    exact absurd (h k h1) h2

/-- The polling loop in closed form. -/
theorem pollLoop_eq (env : CaptchaEnv) (taskId : String) (fuel : Nat) (s : State) :
    pollLoop env taskId fuel 0 s =
      match firstStop env fuel with
      | none => none
      | some k =>
        match env.getTaskResult k with
        | .error e => some (.error (.thrown e), s.push (pollEvents taskId (k + 1)))
        | .ok (some r) => some (.ok r, s.push (pollEvents taskId (k + 1)))
        | .ok none => none := by
  cases hf : firstStop env fuel with
  | none =>
    exact pollLoop_retries env taskId fuel 0 s fun j hj => by
      simpa using firstStop_none env fuel hf j hj
  | some k =>
    obtain ⟨h1, h2, h3⟩ := firstStop_some env fuel k hf
    have := pollLoop_stops env taskId fuel 0 k s h1 (fun j hj => by simpa using h3 j hj)
      (by simpa using h2)
    simpa using this

theorem captchaResult_eq (fuel : Nat) (env : CaptchaEnv) :
    captchaResult fuel env =
      match env.waitForImage with
      | .error e => some (.ok false,
          [.consoleLog ["Waiting for CAPTCHA element..."], .waitForSelector "img[src*=\"captcha\"]",
           .consoleError "Error solving CAPTCHA:" e])
      | .ok _ =>
      match env.screenshot with
      | .error e => some (.ok false,
          [.consoleLog ["Waiting for CAPTCHA element..."], .waitForSelector "img[src*=\"captcha\"]",
           .consoleLog ["CAPTCHA element found!"], .elementScreenshot "captcha.png",
           .consoleError "Error solving CAPTCHA:" e])
      | .ok _ =>
      match env.readFile with
      | .error e => some (.ok false,
          [.consoleLog ["Waiting for CAPTCHA element..."], .waitForSelector "img[src*=\"captcha\"]",
           .consoleLog ["CAPTCHA element found!"], .elementScreenshot "captcha.png",
           .consoleLog ["CAPTCHA screenshot saved at:", "captcha.png"], .readFileSync "captcha.png",
           .consoleError "Error solving CAPTCHA:" e])
      | .ok captchaImage =>
      match env.createTask with
      | .error e => some (.ok false,
          [.consoleLog ["Waiting for CAPTCHA element..."], .waitForSelector "img[src*=\"captcha\"]",
           .consoleLog ["CAPTCHA element found!"], .elementScreenshot "captcha.png",
           .consoleLog ["CAPTCHA screenshot saved at:", "captcha.png"], .readFileSync "captcha.png",
           .createTask captchaImage, .consoleError "Error solving CAPTCHA:" e])
      | .ok none => some (.ok false,
          [.consoleLog ["Waiting for CAPTCHA element..."], .waitForSelector "img[src*=\"captcha\"]",
           .consoleLog ["CAPTCHA element found!"], .elementScreenshot "captcha.png",
           .consoleLog ["CAPTCHA screenshot saved at:", "captcha.png"], .readFileSync "captcha.png",
           .createTask captchaImage,
           .consoleError "Error solving CAPTCHA:"
             "TypeError: cannot read properties of null (reading errorId)"])
      | .ok (some data) =>
        if data.errorId ≠ some 0 then some (.ok false,
          [.consoleLog ["Waiting for CAPTCHA element..."], .waitForSelector "img[src*=\"captcha\"]",
           .consoleLog ["CAPTCHA element found!"], .elementScreenshot "captcha.png",
           .consoleLog ["CAPTCHA screenshot saved at:", "captcha.png"], .readFileSync "captcha.png",
           .createTask captchaImage,
           .consoleError "Error solving CAPTCHA:"
             ("Error creating CAPTCHA task: " ++ data.errorDescription)])
        else
        match firstStop env fuel with
        | none => none
        | some k =>
        match env.getTaskResult k with
        | .ok none => none
        | .error e => some (.ok false,
            beforePoll captchaImage data.taskId ++ pollEvents data.taskId (k + 1) ++
              [.consoleError "Error solving CAPTCHA:" e])
        | .ok (some taskResult) =>
          match taskResult.solution with
          | none => some (.ok false,
              beforePoll captchaImage data.taskId ++ pollEvents data.taskId (k + 1) ++
                [.consoleError "Error solving CAPTCHA:"
                  "TypeError: cannot read properties of undefined (reading text)"])
          | some solution =>
            match env.waitForInput with
            | .error e => some (.ok false,
                beforePoll captchaImage data.taskId ++ pollEvents data.taskId (k + 1) ++
                  [.consoleLog ["Solved CAPTCHA:", solution.text.getD "undefined"],
                   .waitForSelector "input[type=\"text\"]", .consoleError "Error solving CAPTCHA:" e])
            | .ok _ =>
              match env.typeText with
              | .error e => some (.ok false,
                  beforePoll captchaImage data.taskId ++ pollEvents data.taskId (k + 1) ++
                    [.consoleLog ["Solved CAPTCHA:", solution.text.getD "undefined"],
                     .waitForSelector "input[type=\"text\"]", .elementType solution.text,
                     .consoleError "Error solving CAPTCHA:" e])
              | .ok _ => some (.ok true,
                  beforePoll captchaImage data.taskId ++ pollEvents data.taskId (k + 1) ++
                    [.consoleLog ["Solved CAPTCHA:", solution.text.getD "undefined"],
                     .waitForSelector "input[type=\"text\"]", .elementType solution.text]) := by
  unfold captchaResult
  rw [solveCaptcha_eq]
  cases env.waitForImage with
  | error e => simp [State.push]
  | ok _ =>
  cases env.screenshot with
  | error e => simp [State.push]
  | ok _ =>
  cases env.readFile with
  | error e => simp [State.push]
  | ok img =>
  cases env.createTask with
  | error e => simp [State.push]
  | ok d =>
  cases d with
  | none => simp [State.push]
  | some data =>
  by_cases hE : data.errorId = some 0
  · simp only [hE, ne_eq, not_true_eq_false, if_false]
    rw [pollLoop_eq]
    cases firstStop env fuel with
    | none => rfl
    | some k =>
      simp only
      cases env.getTaskResult k with
      | error e => simp [State.push, List.append_assoc]
      | ok d =>
        cases d with
        | none => rfl
        | some tr =>
          simp only
          cases tr.solution with
          | none => simp [State.push, List.append_assoc]
          | some sol =>
            simp only
            cases env.waitForInput with
            | error e => simp [State.push, List.append_assoc]
            | ok _ =>
              cases env.typeText with
              | error e => simp [State.push, List.append_assoc]
              | ok _ => simp [State.push, List.append_assoc]
  · simp [hE, State.push]

theorem firstStop_ready (env : CaptchaEnv) (fuel k : Nat) (r : TaskResult)
    (h : firstStop env fuel = some k) (hk : env.getTaskResult k = .ok (some r)) :
    FirstReady env k r := by
  obtain ⟨_, h2, h3⟩ := firstStop_some env fuel k h
  refine ⟨h3, hk, ?_⟩
  rw [hk] at h2
  simpa [Retries] using h2

theorem FirstReady.unique {env : CaptchaEnv} {k k2 : Nat} {r r2 : TaskResult}
    (h : FirstReady env k r) (h2 : FirstReady env k2 r2) : k = k2 ∧ r = r2 := by
  obtain ⟨ha, hb, hc⟩ := h
  obtain ⟨ha2, hb2, hc2⟩ := h2
  have hk : k = k2 := by
    rcases Nat.lt_trichotomy k k2 with hlt | heq | hgt
    · have := ha2 k hlt
      rw [hb] at this
      exact absurd hc this
    · exact heq
    · have := ha k2 hgt
      rw [hb2] at this
      exact absurd hc2 this
  subst hk
  rw [hb] at hb2
  simp only [Except.ok.injEq, Option.some.injEq] at hb2
  exact ⟨rfl, hb2⟩

theorem pollEvents_byCaptcha (taskId : String) (n : Nat) :
    (pollEvents taskId n).all Event.byCaptcha = true := by
  induction n with
  | zero => rfl
  | succ n ih => simpa [pollEvents, Event.byCaptcha] using ih

theorem pollEvents_milestones (taskId : String) (n : Nat) :
    milestones (pollEvents taskId n) = [] := by
  induction n with
  | zero => rfl
  | succ n ih => simp [pollEvents, milestones_cons, ih]

theorem pollEvents_captchaTexts (taskId : String) (n : Nat) :
    captchaTexts (pollEvents taskId n) = [] := by
  induction n with
  | zero => rfl
  | succ n ih => simp [pollEvents, captchaTexts_cons, ih]

theorem pollEvents_taskRequests (taskId : String) (n : Nat) :
    taskRequests (pollEvents taskId n) = List.replicate n taskId := by
  induction n with
  | zero => rfl
  | succ n ih => simp [pollEvents, taskRequests_cons, List.replicate_succ, ih]

theorem pollEvents_captchaCalls (taskId : String) (n : Nat) :
    captchaCalls (pollEvents taskId n) = 0 := by
  induction n with
  | zero => rfl
  | succ n ih => simp [pollEvents, captchaCalls_cons, ih]

/-- What a call of `solveCaptcha` can contribute to a trace. -/
theorem captchaResult_events (fuel : Nat) (env : CaptchaEnv) (res : Except Abrupt Bool)
    (tc : List Event) (h : captchaResult fuel env = some (res, tc)) :
    (res = .ok true ∨ res = .ok false) ∧ tc.all Event.byCaptcha = true ∧ captchaCalls tc = 1 := by
  rw [captchaResult_eq] at h
  have hp := pollEvents_byCaptcha
  have hq := pollEvents_captchaCalls
  repeat' split at h
  all_goals try contradiction
  all_goals simp only [Option.some.injEq, Prod.mk.injEq] at h
  all_goals obtain ⟨rfl, rfl⟩ := h
  all_goals simp [Event.byCaptcha, captchaMessages, beforePoll, hp, hq]

theorem solveCaptcha_result (fuel : Nat) (env : CaptchaEnv) (s : State)
    (res : Except Abrupt Bool) (s1 : State) (h : solveCaptcha fuel env s = some (res, s1)) :
    ∃ tc, captchaResult fuel env = some (res, tc) ∧ s1 = s.push tc := by
  rw [solveCaptcha_apply] at h
  cases hc : captchaResult fuel env with
  | none => rw [hc] at h; exact absurd h (by simp)
  | some p =>
    rw [hc] at h
    simp only [Option.map_some', Option.some.injEq, Prod.mk.injEq] at h
    exact ⟨p.2, by rw [← h.1], h.2.symm⟩

theorem captchaResult_texts (fuel : Nat) (env : CaptchaEnv) (res : Except Abrupt Bool)
    (tc : List Event) (h : captchaResult fuel env = some (res, tc)) :
    (res = .ok true →
      ∃ k r sol, FirstReady env k r ∧ r.solution = some sol ∧ captchaTexts tc = [sol.text] ∧
        (taskRequests tc).length = k + 1) ∧
    (∀ text ∈ captchaTexts tc,
      ∃ k r sol, FirstReady env k r ∧ r.solution = some sol ∧ text = sol.text) := by
  rw [captchaResult_eq] at h
  have hp := pollEvents_captchaTexts
  have hq := pollEvents_taskRequests
  repeat' split at h
  all_goals try contradiction
  all_goals simp only [Option.some.injEq, Prod.mk.injEq] at h
  all_goals obtain ⟨rfl, rfl⟩ := h
  all_goals simp [beforePoll, hp, hq]
  all_goals rename_i hf _ tr hk _ sol hsol _ _ _ _ _ _
  all_goals first
    | exact ⟨_, tr, firstStop_ready env fuel _ tr hf hk, sol, hsol, rfl⟩
    | exact ⟨⟨_, tr, firstStop_ready env fuel _ tr hf hk, sol, hsol, rfl, rfl⟩,
        ⟨_, tr, firstStop_ready env fuel _ tr hf hk, sol, hsol, rfl⟩⟩

/-- The milestones of a call of `solveCaptcha` are the texts it typed into the
CAPTCHA input field, and a call that returns true typed exactly one. -/
theorem captchaResult_milestones (fuel : Nat) (env : CaptchaEnv) (res : Except Abrupt Bool)
    (tc : List Event) (h : captchaResult fuel env = some (res, tc)) :
    milestones tc = (captchaTexts tc).map Event.elementType ∧
      (res = .ok true → ∃ text, captchaTexts tc = [text]) := by
  rw [captchaResult_eq] at h
  have hp := pollEvents_captchaTexts
  have hq := pollEvents_milestones
  repeat' split at h
  all_goals try contradiction
  all_goals simp only [Option.some.injEq, Prod.mk.injEq] at h
  all_goals obtain ⟨rfl, rfl⟩ := h
  all_goals simp [beforePoll, hp, hq]

/-! ## Claims on `solveCaptcha` -/

/-- C3: whenever `solveCaptcha` returns true, some `getTaskResult` response
had status 'ready', and the text typed into the CAPTCHA input field is the
`solution.text` of the first such response (number `k`, after exactly
`k + 1` requests); whatever the return value, no other text is ever typed
into that field. -/
theorem solveCaptcha_types_first_ready_text (fuel : Nat) (env : CaptchaEnv) (s : State)
    (res : Except Abrupt Bool) (s1 : State) (h : solveCaptcha fuel env s = some (res, s1)) :
    ∃ tc, s1 = s.push tc ∧
      (res = .ok true →
        ∃ k r sol, FirstReady env k r ∧ r.solution = some sol ∧ captchaTexts tc = [sol.text] ∧
          (taskRequests tc).length = k + 1) ∧
      (∀ text ∈ captchaTexts tc,
        ∃ k r sol, FirstReady env k r ∧ r.solution = some sol ∧ text = sol.text) := by
  obtain ⟨tc, hc, hs⟩ := solveCaptcha_result fuel env s res s1 h
  exact ⟨tc, hs, captchaResult_texts fuel env res tc hc⟩

theorem captchaResult_image_missing (fuel : Nat) (env : CaptchaEnv) (e : String)
    (h : env.waitForImage = .error e) :
    ∃ tc, captchaResult fuel env = some (.ok false, tc) ∧ captchaTexts tc = [] ∧
      taskRequests tc = [] := by
  rw [captchaResult_eq, h]
  exact ⟨_, rfl, by simp, by simp⟩

theorem captchaResult_task_rejected (fuel : Nat) (env : CaptchaEnv) (data : CreateTaskData)
    (h : env.createTask = .ok (some data)) (hid : data.errorId ≠ some 0) :
    ∃ tc, captchaResult fuel env = some (.ok false, tc) ∧ captchaTexts tc = [] ∧
      taskRequests tc = [] := by
  rw [captchaResult_eq]
  simp only [h, hid, ne_eq, not_false_eq_true, if_true]
  repeat' split
  all_goals exact ⟨_, rfl, by simp, by simp⟩

theorem captchaResult_createTask_error (fuel : Nat) (env : CaptchaEnv) (e : String)
    (h : env.createTask = .error e) :
    ∃ tc, captchaResult fuel env = some (.ok false, tc) ∧ captchaTexts tc = [] ∧
      taskRequests tc = [] := by
  rw [captchaResult_eq]
  simp only [h]
  repeat' split
  all_goals exact ⟨_, rfl, by simp, by simp⟩

theorem captchaResult_poll_error (fuel : Nat) (env : CaptchaEnv) (k : Nat) (e : String)
    (hk : k < fuel) (hbefore : ∀ j, j < k → Retries (env.getTaskResult j))
    (h : env.getTaskResult k = .error e) :
    ∃ tc, captchaResult fuel env = some (.ok false, tc) ∧ captchaTexts tc = [] := by
  have hstop : firstStop env fuel = some k :=
    firstStop_eq env fuel k hk (by rw [h]; simp [Retries]) hbefore
  rw [captchaResult_eq]
  simp only [hstop, h]
  repeat' split
  all_goals exact ⟨_, rfl, by simp [beforePoll, pollEvents_captchaTexts]⟩

theorem captchaResult_completes (fuel : Nat) (env : CaptchaEnv)
    (h : ∃ k, k < fuel ∧ ¬ Retries (env.getTaskResult k)) :
    ∃ res tc, captchaResult fuel env = some (res, tc) := by
  obtain ⟨k0, hk0, hstop0⟩ := h
  cases hf : firstStop env fuel with
  | none => exact absurd (firstStop_none env fuel hf k0 hk0) hstop0
  | some k =>
    obtain ⟨_, hstop, _⟩ := firstStop_some env fuel k hf
    rw [captchaResult_eq]
    simp only [hf]
    cases hg : env.getTaskResult k with
    | error e =>
      simp only
      repeat' split
      all_goals exact ⟨_, _, rfl⟩
    | ok d =>
      cases d with
      | none => rw [hg] at hstop; exact absurd trivial hstop
      | some tr =>
        simp only
        repeat' split
        all_goals exact ⟨_, _, rfl⟩

theorem solveCaptcha_of_result (fuel : Nat) (env : CaptchaEnv) (s : State)
    (res : Except Abrupt Bool) (tc : List Event) (h : captchaResult fuel env = some (res, tc)) :
    solveCaptcha fuel env s = some (res, s.push tc) := by
  rw [solveCaptcha_apply, h]
  rfl

/-- C7, as amended: `solveCaptcha` never propagates an exception: whenever it
completes, it completes with true or false, and it does complete once one of
the first `fuel` responses of `getTaskResult` is 'ready' or a transport
error. It returns false, without typing anything into the CAPTCHA input
field, when the CAPTCHA image is not found within the timeout, when the
`createTask` response has an `errorId` other than 0 (no `getTaskResult`
request is then made), and on a transport error of `createTask` or of
`getTaskResult`. -/
theorem solveCaptcha_returns_boolean (fuel : Nat) (env : CaptchaEnv) (s : State) :
    (∀ res s1, solveCaptcha fuel env s = some (res, s1) → res = .ok true ∨ res = .ok false) ∧
    ((∃ k, k < fuel ∧ ¬ Retries (env.getTaskResult k)) →
      ∃ res s1, solveCaptcha fuel env s = some (res, s1)) ∧
    (∀ e, env.waitForImage = .error e →
      ∃ tc, solveCaptcha fuel env s = some (.ok false, s.push tc) ∧ captchaTexts tc = [] ∧
        taskRequests tc = []) ∧
    (∀ data, env.createTask = .ok (some data) → data.errorId ≠ some 0 →
      ∃ tc, solveCaptcha fuel env s = some (.ok false, s.push tc) ∧ captchaTexts tc = [] ∧
        taskRequests tc = []) ∧
    (∀ e, env.createTask = .error e →
      ∃ tc, solveCaptcha fuel env s = some (.ok false, s.push tc) ∧ captchaTexts tc = [] ∧
        taskRequests tc = []) ∧
    (∀ k e, k < fuel → (∀ j, j < k → Retries (env.getTaskResult j)) →
      env.getTaskResult k = .error e →
      ∃ tc, solveCaptcha fuel env s = some (.ok false, s.push tc) ∧ captchaTexts tc = []) := by
  refine ⟨?_, ?_, ?_, ?_, ?_, ?_⟩
  · intro res s1 h
    obtain ⟨tc, hc, _⟩ := solveCaptcha_result fuel env s res s1 h
    exact (captchaResult_events fuel env res tc hc).1
  · intro h
    obtain ⟨res, tc, hc⟩ := captchaResult_completes fuel env h
    exact ⟨res, _, solveCaptcha_of_result fuel env s res tc hc⟩
  · intro e h
    obtain ⟨tc, hc, h1, h2⟩ := captchaResult_image_missing fuel env e h
    exact ⟨tc, solveCaptcha_of_result fuel env s _ tc hc, h1, h2⟩
  · intro data h hid
    obtain ⟨tc, hc, h1, h2⟩ := captchaResult_task_rejected fuel env data h hid
    exact ⟨tc, solveCaptcha_of_result fuel env s _ tc hc, h1, h2⟩
  · intro e h
    obtain ⟨tc, hc, h1, h2⟩ := captchaResult_createTask_error fuel env e h
    exact ⟨tc, solveCaptcha_of_result fuel env s _ tc hc, h1, h2⟩
  · intro k e hk hbefore h
    obtain ⟨tc, hc, h1⟩ := captchaResult_poll_error fuel env k e hk hbefore h
    exact ⟨tc, solveCaptcha_of_result fuel env s _ tc hc, h1⟩

/-- C10: when the first response with status 'ready' is number `k` and no
response before it is a transport error, the polling loop makes exactly
`k + 1` iterations, each a wait of 5000 ms followed by one `getTaskResult`
request, and ends with that response (with fuel for fewer than `k + 1`
iterations it has not ended); when every response asks for a retry, the loop
never ends, whatever the fuel. -/
theorem pollLoop_until_ready (env : CaptchaEnv) (taskId : String) (s : State) :
    (∀ k r, FirstReady env k r →
      (∀ fuel, k < fuel →
        pollLoop env taskId fuel 0 s = some (.ok r, s.push (pollEvents taskId (k + 1)))) ∧
      (∀ fuel, fuel ≤ k → pollLoop env taskId fuel 0 s = none) ∧
      taskRequests (pollEvents taskId (k + 1)) = List.replicate (k + 1) taskId) ∧
    ((∀ j, Retries (env.getTaskResult j)) → ∀ fuel, pollLoop env taskId fuel 0 s = none) := by
  constructor
  · intro k r ⟨hbefore, hk, hr⟩
    have hstop : ¬ Retries (env.getTaskResult k) := by rw [hk]; simp [Retries, hr]
    refine ⟨fun fuel hfuel => ?_, fun fuel hfuel => ?_, pollEvents_taskRequests taskId (k + 1)⟩
    · rw [pollLoop_eq, firstStop_eq env fuel k hfuel hstop hbefore]
      simp only [hk]
    · rw [pollLoop_eq, firstStop_eq_none env fuel fun j hj => hbefore j (by omega)]
  · intro hall fuel
    rw [pollLoop_eq, firstStop_eq_none env fuel fun j _ => hall j]

/-! ## The main flow -/

/-- How a run ends: a call before the `try` block threw, or the `try` block
completed and was followed by the `catch` block (after a thrown error) and
the `finally` block. -/
theorem run_inv (fuel : Nat) (config : Config) (w : World) (r : Except Abrupt Unit) (s : State)
    (h : run fuel config w = some (r, s)) :
    (∃ t, t <+: setupEvents ∧ s = State.push {} t ∧ (∃ e, r = .error (.thrown e)) ∧
        ∃ e, w.launch = .error e ∨ w.newPage = .error e ∨ w.setRequestInterception = .error e ∨
          w.setUserAgent = .error e) ∨
    ∃ rb sb, mainBody fuel config w (State.push {} setupEvents) = some (rb, sb) ∧
      ((∃ e, rb = .error (.thrown e) ∧
          s = ({ sb with caught := some e } : State).push (handlerEvents w e ++ [.close])) ∨
       ((∀ e, rb ≠ .error (.thrown e)) ∧ s = sb.push [.close] ∧
          (w.close = .ok () → r = .ok ()))) := by
  unfold run main at h
  simp only [Proc.asFunction_apply, Proc.bind_call, Proc.bind_emit, State.push_push,
    List.singleton_append, List.cons_append, List.nil_append] at h
  cases h1 : w.launch with
  | error e =>
    simp only [h1, Option.some.injEq, Prod.mk.injEq] at h
    exact Or.inl ⟨[.launch], by simp [setupEvents], h.2.symm, ⟨e, h.1.symm⟩, e, Or.inl rfl⟩
  | ok _ =>
  cases h2 : w.newPage with
  | error e =>
    simp only [h1, h2, Option.some.injEq, Prod.mk.injEq] at h
    exact Or.inl ⟨[.launch, .newPage], by simp [setupEvents], h.2.symm, ⟨e, h.1.symm⟩, e,
      Or.inr (Or.inl rfl)⟩
  | ok _ =>
  cases h3 : w.setRequestInterception with
  | error e =>
    simp only [h1, h2, h3, Option.some.injEq, Prod.mk.injEq] at h
    exact Or.inl ⟨[.launch, .newPage, .setRequestInterception], by simp [setupEvents],
      h.2.symm, ⟨e, h.1.symm⟩, e, Or.inr (Or.inr (Or.inl rfl))⟩
  | ok _ =>
  cases h4 : w.setUserAgent with
  | error e =>
    simp only [h1, h2, h3, h4, Option.some.injEq, Prod.mk.injEq] at h
    exact Or.inl ⟨setupEvents, List.prefix_refl _, h.2.symm, ⟨e, h.1.symm⟩, e,
      Or.inr (Or.inr (Or.inr rfl))⟩
  | ok _ =>
  simp only [h1, h2, h3, h4, Proc.tryFinally_apply, Proc.tryCatch_apply] at h
  refine Or.inr ?_
  have hs : State.push {} [Event.launch, Event.newPage, Event.setRequestInterception,
      Event.onRequest, Event.setUserAgent userAgent] = State.push {} setupEvents := rfl
  rw [hs] at h
  cases hb : mainBody fuel config w (State.push {} setupEvents) with
  | none => simp [hb] at h
  | some p =>
    obtain ⟨rb, sb⟩ := p
    refine ⟨rb, sb, rfl, ?_⟩
    simp only [hb] at h
    cases rb with
    | ok u =>
      refine Or.inr ⟨fun e => by simp, ?_⟩
      simp only [Proc.call_apply] at h
      cases hc : w.close with
      | error e =>
        simp only [hc, Option.some.injEq, Prod.mk.injEq] at h
        exact ⟨h.2.symm, fun hx => by simp at hx⟩
      | ok _ =>
        simp only [hc, Option.some.injEq, Prod.mk.injEq] at h
        exact ⟨h.2.symm, fun _ => h.1.symm⟩
    | error a =>
      cases a with
      | returned =>
        refine Or.inr ⟨fun e => by simp, ?_⟩
        simp only [Proc.call_apply] at h
        cases hc : w.close with
        | error e =>
          simp only [hc, Option.some.injEq, Prod.mk.injEq] at h
          exact ⟨h.2.symm, fun hx => by simp at hx⟩
        | ok _ =>
          simp only [hc, Option.some.injEq, Prod.mk.injEq] at h
          exact ⟨h.2.symm, fun _ => h.1.symm⟩
      | thrown e =>
        refine Or.inl ⟨e, rfl, ?_⟩
        unfold mainHandler saveScreenshot at h
        simp only [Proc.bind_assoc, Proc.bind_call, Proc.bind_emit, Proc.bind_assign,
          Proc.call_apply, Proc.emit_apply, State.push_push, handlerEvents] at h ⊢
        cases hc : w.close <;> cases h5 : w.content <;> cases h6 : w.writeFile <;>
          cases h7 : w.screenshot "error_page.png" <;>
          simp only [hc, h5, h6, h7, Option.some.injEq, Prod.mk.injEq, State.push_push] at h <;>
          simp [← h.2, State.push]

/-- A call of `solveCaptcha` types into no form field, takes no page
screenshot, clicks nothing, navigates nowhere and does not close the browser. -/
theorem byCaptcha_observers (t : List Event) (h : t.all Event.byCaptcha = true) :
    typedFields t = [] ∧ screenshots t = [] ∧ clicks t = [] ∧ gotos t = [] ∧ closes t = 0 ∧
      Event.consoleLog ["Filling out the appointment booking form..."] ∉ t := by
  induction t with
  | nil => simp
  | cons ev t ih =>
    simp only [List.all_cons, Bool.and_eq_true] at h
    obtain ⟨h1, h2, h3, h4, h5, h6⟩ := ih h.2
    have h0 := h.1
    cases ev
    case consoleLog args =>
      refine ⟨by simp [h1], by simp [h2], by simp [h3],
        by simp [h4], by simp [h5], ?_⟩
      simp only [List.mem_cons, not_or]
      refine ⟨?_, h6⟩
      intro hx
      simp only [Event.consoleLog.injEq] at hx
      rw [← hx] at h0
      simp [Event.byCaptcha, captchaMessages] at h0
    all_goals simp_all [Event.byCaptcha]

theorem captchaResult_observers (fuel : Nat) (env : CaptchaEnv) (res : Except Abrupt Bool)
    (tc : List Event) (h : captchaResult fuel env = some (res, tc)) :
    typedFields tc = [] ∧ screenshots tc = [] ∧ clicks tc = [] ∧ gotos tc = [] ∧ closes tc = 0 ∧
      Event.consoleLog ["Filling out the appointment booking form..."] ∉ tc ∧
      captchaCalls tc = 1 :=
  have h2 := captchaResult_events fuel env res tc h
  have h3 := byCaptcha_observers tc h2.2.1
  ⟨h3.1, h3.2.1, h3.2.2.1, h3.2.2.2.1, h3.2.2.2.2.1, h3.2.2.2.2.2, h2.2.2⟩

/-- A call of `solveCaptcha` does not log the message of the branch without
appointments. -/
theorem captchaResult_no_log (fuel : Nat) (env : CaptchaEnv) (res : Except Abrupt Bool)
    (tc : List Event) (h : captchaResult fuel env = some (res, tc)) :
    Event.consoleLog ["No appointments available."] ∉ tc := by
  have h2 := (captchaResult_events fuel env res tc h).2.1
  simp only [List.all_eq_true] at h2
  intro hmem
  have := h2 _ hmem
  simp [Event.byCaptcha, captchaMessages] at this

theorem suffix_cons_right {t l : List Event} (a : Event) (h : t <:+ l) : t <:+ a :: l :=
  h.trans (List.suffix_cons a l)

theorem suffix_append_right {t l : List Event} (l2 : List Event) (h : t <:+ l) : t <:+ l2 ++ l :=
  h.trans (List.suffix_append l2 l)

theorem body_captcha_failure (fuel : Nat) (config : Config) (w : World)
    (rb : Except Abrupt Unit) (sb : State)
    (h : mainBody fuel config w (State.push {} setupEvents) = some (rb, sb)) :
    sb.caught = none ∧
    (sb.captchaSuccess = some false →
      rb = .error (.thrown "Failed to solve CAPTCHA.") ∧
      ∃ tc, captchaResult fuel w.captcha1 = some (.ok false, tc) ∧ tc <:+ sb.trace) ∧
    (sb.finalCaptchaSuccess = some false →
      rb = .error (.thrown "Failed to solve final CAPTCHA.") ∧
      ∃ tc, captchaResult fuel w.captcha2 = some (.ok false, tc) ∧ tc <:+ sb.trace) := by
  unfold mainBody saveScreenshot at h
  simp only [Proc.bind_assoc, Proc.raise_bind, Proc.returnNow_bind, Proc.pure_bind] at h
  simp only [Proc.bind_solveCaptcha, Proc.bind_call, Proc.bind_emit, Proc.bind_assign,
    Proc.raise_apply, Proc.pure_apply, Proc.emit_apply, Proc.call_apply, State.push_push,
    List.singleton_append, List.cons_append, List.nil_append] at h
  repeat' (first
    | (split at h)
    | (simp only [Proc.bind_solveCaptcha, Proc.bind_call, Proc.bind_emit, Proc.bind_assign,
        Proc.raise_apply, Proc.returnNow_apply, Proc.pure_apply, Proc.emit_apply, Proc.call_apply,
        State.push_push, List.singleton_append, List.cons_append, List.nil_append] at h))
  all_goals try contradiction
  all_goals simp only [Option.some.injEq, Prod.mk.injEq] at h
  all_goals obtain ⟨rfl, rfl⟩ := h
  all_goals try (simp_all [State.push]; done)
  · rename_i b tc hcap hb
    have hb2 : b = false := by simpa using hb
    subst hb2
    refine ⟨rfl, fun _ => ⟨rfl, tc, hcap, ?_⟩, fun hx => by simp at hx⟩
    simp only [State.push_trace]
    repeat (first | exact List.suffix_refl _ | apply suffix_cons_right | apply suffix_append_right)
  · rename_i b tc hcap hb
    have hb2 : b = false := by simpa using hb
    subst hb2
    refine ⟨rfl, fun hx => by simp_all, fun _ => ⟨rfl, tc, hcap, ?_⟩⟩
    simp only [State.push_trace]
    repeat (first | exact List.suffix_refl _ | apply suffix_cons_right | apply suffix_append_right)

theorem handlerEvents_clicks (w : World) (e : String) :
    clicks (handlerEvents w e ++ [.close]) = [] := by
  unfold handlerEvents
  cases w.content <;> cases w.writeFile <;> cases w.screenshot "error_page.png" <;>
    simp

/-- C1: whenever a call of `solveCaptcha` returns false (the first call, bound
to `captchaSuccess`, or the second, bound to `finalCaptchaSuccess`), the trace
of the run is the trace up to the return of that call followed by events
among which there is no click, and among which the top-level handler logs the
error 'Failed to solve CAPTCHA.' (resp. 'Failed to solve final CAPTCHA.'). -/
theorem captcha_failure_aborts_run (fuel : Nat) (config : Config) (w : World)
    (r : Except Abrupt Unit) (s : State) (h : run fuel config w = some (r, s)) :
    (s.captchaSuccess = some false →
      ∃ pre tc post, captchaResult fuel w.captcha1 = some (.ok false, tc) ∧
        s.trace = pre ++ tc ++ post ∧ clicks post = [] ∧
        .consoleError "Error during the process:" "Failed to solve CAPTCHA." ∈ post ∧
        s.caught = some "Failed to solve CAPTCHA.") ∧
    (s.finalCaptchaSuccess = some false →
      ∃ pre tc post, captchaResult fuel w.captcha2 = some (.ok false, tc) ∧
        s.trace = pre ++ tc ++ post ∧ clicks post = [] ∧
        .consoleError "Error during the process:" "Failed to solve final CAPTCHA." ∈ post ∧
        s.caught = some "Failed to solve final CAPTCHA.") := by
  rcases run_inv fuel config w r s h with ⟨t, _, rfl, _, _⟩ | ⟨rb, sb, hb, hfin⟩
  · exact ⟨fun hx => by simp at hx, fun hx => by simp at hx⟩
  · obtain ⟨_, h1, h2⟩ := body_captcha_failure fuel config w rb sb hb
    rcases hfin with ⟨e, rfl, rfl⟩ | ⟨hne, rfl, _⟩
    · constructor
      · intro hx
        obtain ⟨he, tc, hc, pre, hpre⟩ := h1 (by simpa using hx)
        simp only [Except.error.injEq, Abrupt.thrown.injEq] at he
        subst he
        refine ⟨pre, tc, handlerEvents w "Failed to solve CAPTCHA." ++ [.close], hc, ?_,
          handlerEvents_clicks w _, ?_, ?_⟩
        · simp [hpre]
        · simp [handlerEvents]
        · simp
      · intro hx
        obtain ⟨he, tc, hc, pre, hpre⟩ := h2 (by simpa using hx)
        simp only [Except.error.injEq, Abrupt.thrown.injEq] at he
        subst he
        refine ⟨pre, tc, handlerEvents w "Failed to solve final CAPTCHA." ++ [.close], hc, ?_,
          handlerEvents_clicks w _, ?_, ?_⟩
        · simp [hpre]
        · simp [handlerEvents]
        · simp
    · constructor
      · intro hx
        exact absurd (h1 (by simpa using hx)).1 (hne _)
      · intro hx
        exact absurd (h2 (by simpa using hx)).1 (hne _)


set_option maxHeartbeats 4000000 in
/-- The form fields typed in the `try` block are an initial segment of the
expected list, all of it once the form is reached and no `page.type` call
throws; the `try` block does not close the browser. -/
theorem body_form (fuel : Nat) (config : Config) (w : World)
    (rb : Except Abrupt Unit) (sb : State)
    (h : mainBody fuel config w (State.push {} setupEvents) = some (rb, sb)) :
    typedFields sb.trace <+: expectedForm config ∧ closes sb.trace = 0 ∧
    (Event.consoleLog ["Filling out the appointment booking form..."] ∈ sb.trace →
      (∀ selector, w.pageType selector = .ok ()) → typedFields sb.trace = expectedForm config) := by
  unfold mainBody saveScreenshot at h
  simp only [Proc.bind_assoc, Proc.raise_bind, Proc.returnNow_bind, Proc.pure_bind] at h
  simp only [Proc.bind_solveCaptcha, Proc.bind_call, Proc.bind_emit, Proc.bind_assign,
    Proc.raise_apply, Proc.pure_apply, Proc.emit_apply, Proc.call_apply, State.push_push,
    List.singleton_append, List.cons_append, List.nil_append] at h
  repeat' (first
    | (split at h)
    | (simp only [Proc.bind_solveCaptcha, Proc.bind_call, Proc.bind_emit, Proc.bind_assign,
        Proc.raise_apply, Proc.returnNow_apply, Proc.pure_apply, Proc.emit_apply, Proc.call_apply,
        State.push_push, List.singleton_append, List.cons_append, List.nil_append] at h))
  all_goals try contradiction
  all_goals simp only [Option.some.injEq, Prod.mk.injEq] at h
  all_goals obtain ⟨rfl, rfl⟩ := h
  all_goals try (have hT1 := captchaResult_observers fuel w.captcha1 _ _ (by assumption))
  all_goals try (have hT2 := captchaResult_observers fuel w.captcha2 _ _ (by assumption))
  all_goals refine ⟨?_, ?_, fun hmem hall => ?_⟩
  all_goals simp_all [State.push, setupEvents, expectedForm]

set_option maxHeartbeats 4000000 in
/-- The branch without appointments: reached when the value bound to
`availableAppointments` is falsy. -/
theorem body_no_appointments (fuel : Nat) (config : Config) (w : World)
    (rb : Except Abrupt Unit) (sb : State)
    (h : mainBody fuel config w (State.push {} setupEvents) = some (rb, sb))
    (anchors : List Anchor) (hev : w.evaluate = .ok anchors)
    (hreach : sb.availableAppointments ≠ none) (hfalse : truthy (findLink anchors) = false) :
    sb.availableAppointments = some (findLink anchors) ∧ sb.finalCaptchaSuccess = none ∧
    typedFields sb.trace = [] ∧ captchaCalls sb.trace = 1 ∧ clicks sb.trace = [submitSelector] ∧
    gotos sb.trace = [startUrl] ∧
    screenshots sb.trace = ["process1.png", "process2.png", "no_appointments_available.png"] ∧
    Event.consoleLog ["No appointments available."] ∈ sb.trace ∧
    rb = (match w.screenshot "no_appointments_available.png" with
      | .ok _ => .error .returned
      | .error e => .error (.thrown e)) := by
  unfold mainBody saveScreenshot at h
  simp only [Proc.bind_assoc, Proc.raise_bind, Proc.returnNow_bind, Proc.pure_bind] at h
  simp only [Proc.bind_solveCaptcha, Proc.bind_call, Proc.bind_emit, Proc.bind_assign,
    Proc.raise_apply, Proc.pure_apply, Proc.emit_apply, Proc.call_apply, State.push_push,
    List.singleton_append, List.cons_append, List.nil_append] at h
  repeat' (first
    | (split at h)
    | (simp only [Proc.bind_solveCaptcha, Proc.bind_call, Proc.bind_emit, Proc.bind_assign,
        Proc.raise_apply, Proc.returnNow_apply, Proc.pure_apply, Proc.emit_apply, Proc.call_apply,
        State.push_push, List.singleton_append, List.cons_append, List.nil_append] at h))
  all_goals try contradiction
  all_goals simp only [Option.some.injEq, Prod.mk.injEq] at h
  all_goals obtain ⟨rfl, rfl⟩ := h
  all_goals try (have hT1 := captchaResult_observers fuel w.captcha1 _ _ (by assumption))
  all_goals try (have hT2 := captchaResult_observers fuel w.captcha2 _ _ (by assumption))
  all_goals simp_all [State.push, setupEvents]

set_option maxHeartbeats 4000000 in
/-- The branch with appointments: reached when the value bound to
`availableAppointments` is truthy. -/
theorem body_available (fuel : Nat) (config : Config) (w : World)
    (rb : Except Abrupt Unit) (sb : State)
    (h : mainBody fuel config w (State.push {} setupEvents) = some (rb, sb))
    (anchors : List Anchor) (hev : w.evaluate = .ok anchors)
    (hreach : sb.availableAppointments ≠ none) (htrue : truthy (findLink anchors) = true) :
    sb.availableAppointments = some (findLink anchors) ∧
    gotos sb.trace = [startUrl, (findLink anchors).getD ""] ∧
    Event.consoleLog ["No appointments available."] ∉ sb.trace ∧
    (w.gotoAvailable = .ok () → w.screenshot "appointments_available.png" = .ok () →
      Event.consoleLog ["Filling out the appointment booking form..."] ∈ sb.trace) := by
  unfold mainBody saveScreenshot at h
  simp only [Proc.bind_assoc, Proc.raise_bind, Proc.returnNow_bind, Proc.pure_bind] at h
  simp only [Proc.bind_solveCaptcha, Proc.bind_call, Proc.bind_emit, Proc.bind_assign,
    Proc.raise_apply, Proc.pure_apply, Proc.emit_apply, Proc.call_apply, State.push_push,
    List.singleton_append, List.cons_append, List.nil_append] at h
  repeat' (first
    | (split at h)
    | (simp only [Proc.bind_solveCaptcha, Proc.bind_call, Proc.bind_emit, Proc.bind_assign,
        Proc.raise_apply, Proc.returnNow_apply, Proc.pure_apply, Proc.emit_apply, Proc.call_apply,
        State.push_push, List.singleton_append, List.cons_append, List.nil_append] at h))
  all_goals try contradiction
  all_goals simp only [Option.some.injEq, Prod.mk.injEq] at h
  all_goals obtain ⟨rfl, rfl⟩ := h
  all_goals try (have hT1 := captchaResult_observers fuel w.captcha1 _ _ (by assumption))
  all_goals try (have hT2 := captchaResult_observers fuel w.captcha2 _ _ (by assumption))
  all_goals try (have hN1 := captchaResult_no_log fuel w.captcha1 _ _ (by assumption))
  all_goals try (have hN2 := captchaResult_no_log fuel w.captcha2 _ _ (by assumption))
  all_goals simp_all [State.push, setupEvents]

set_option maxHeartbeats 4000000 in
/-- The `try` block when the second call of `solveCaptcha` returned true and
nothing was thrown afterwards: every step was made, in order. -/
theorem body_success (fuel : Nat) (config : Config) (w : World)
    (rb : Except Abrupt Unit) (sb : State)
    (h : mainBody fuel config w (State.push {} setupEvents) = some (rb, sb))
    (hfinal : sb.finalCaptchaSuccess = some true) (hrb : ∀ e, rb ≠ .error (.thrown e)) :
    rb = .ok () ∧ sb.captchaSuccess = some true ∧
    ∃ href text1 text2, sb.availableAppointments = some (some href) ∧ href ≠ "" ∧
      milestones sb.trace =
        [.goto startUrl, .pageScreenshot "process1.png", .elementType text1,
         .click submitSelector, .pageScreenshot "process2.png", .goto href,
         .pageScreenshot "appointments_available.png",
         .pageType "#appointment_newAppointmentForm_lastname" config.lastname,
         .pageType "#appointment_newAppointmentForm_firstname" config.firstname,
         .pageType "#appointment_newAppointmentForm_email" config.email,
         .pageType "#appointment_newAppointmentForm_emailrepeat" config.email,
         .pageType "#appointment_newAppointmentForm_fields_0__content" config.passportNumber,
         .pageType "#appointment_newAppointmentForm_fields_1__content" config.province,
         .pageType "#appointment_newAppointmentForm_fields_2__content" config.country,
         .pageScreenshot "process3.png", .elementType text2, .click submitSelector,
         .pageScreenshot "process4.png"] := by
  unfold mainBody saveScreenshot at h
  simp only [Proc.bind_assoc, Proc.raise_bind, Proc.returnNow_bind, Proc.pure_bind] at h
  simp only [Proc.bind_solveCaptcha, Proc.bind_call, Proc.bind_emit, Proc.bind_assign,
    Proc.raise_apply, Proc.pure_apply, Proc.emit_apply, Proc.call_apply, State.push_push,
    List.singleton_append, List.cons_append, List.nil_append] at h
  repeat' (first
    | (split at h)
    | (simp only [Proc.bind_solveCaptcha, Proc.bind_call, Proc.bind_emit, Proc.bind_assign,
        Proc.raise_apply, Proc.returnNow_apply, Proc.pure_apply, Proc.emit_apply, Proc.call_apply,
        State.push_push, List.singleton_append, List.cons_append, List.nil_append] at h))
  all_goals try contradiction
  all_goals simp only [Option.some.injEq, Prod.mk.injEq] at h
  all_goals obtain ⟨rfl, rfl⟩ := h
  all_goals try (simp_all [State.push]; done)
  have hM1 := captchaResult_milestones fuel w.captcha1 _ _ (by assumption)
  have hM2 := captchaResult_milestones fuel w.captcha2 _ _ (by assumption)
  obtain ⟨anchors, hev, htr⟩ :
      ∃ anchors, w.evaluate = .ok anchors ∧ truthy (findLink anchors) = true :=
    ⟨_, by assumption, by assumption⟩
  cases hfl : findLink anchors with
  | none => simp [hfl, truthy] at htr
  | some href =>
    rw [hfl] at htr
    have hne : href ≠ "" := by simpa [truthy] using htr
    simp_all [State.push, setupEvents]
    obtain ⟨_, text1, ht1⟩ := hM1
    obtain ⟨_, text2, ht2⟩ := hM2
    exact ⟨text1, text2, by simp [ht1, ht2]⟩

/-! ## The availability check -/

theorem findLink_none (anchors : List Anchor)
    (h : ∀ a ∈ anchors, includes a.innerText "Appointments are available" = false) :
    findLink anchors = none := by
  unfold findLink
  have : anchors.find? (fun el => includes el.innerText "Appointments are available") = none := by
    rw [List.find?_eq_none]
    intro a ha
    simp [h a ha]
  rw [this]

theorem findLink_first (pre post : List Anchor) (a : Anchor)
    (hpre : ∀ b ∈ pre, includes b.innerText "Appointments are available" = false)
    (ha : includes a.innerText "Appointments are available" = true) :
    findLink (pre ++ a :: post) = some a.href := by
  unfold findLink
  have : (pre ++ a :: post).find? (fun el => includes el.innerText "Appointments are available")
      = some a := by
    induction pre with
    | nil => simp [List.find?, ha]
    | cons b pre ih =>
      have hb := hpre b (List.mem_cons_self b pre)
      simp only [List.cons_append, List.find?, hb]
      exact ih fun c hc => hpre c (List.mem_cons_of_mem b hc)
  rw [this]

/-! ## The `catch` and `finally` blocks -/

theorem handlerEvents_observers (w : World) (e : String) :
    typedFields (handlerEvents w e ++ [.close]) = [] ∧
    gotos (handlerEvents w e ++ [.close]) = [] ∧
    captchaCalls (handlerEvents w e ++ [.close]) = 0 ∧
    closes (handlerEvents w e ++ [.close]) = 1 ∧
    Event.consoleLog ["Filling out the appointment booking form..."] ∉
      handlerEvents w e ++ [.close] ∧
    Event.consoleLog ["No appointments available."] ∉ handlerEvents w e ++ [.close] := by
  unfold handlerEvents
  cases w.content <;> cases w.writeFile <;> cases w.screenshot "error_page.png" <;>
    simp

theorem milestones_observers (t : List Event) :
    screenshots (milestones t) = screenshots t ∧ typedFields (milestones t) = typedFields t ∧
      clicks (milestones t) = clicks t ∧ closes (milestones t) = closes t := by
  induction t with
  | nil => simp
  | cons ev t ih =>
    obtain ⟨h1, h2, h3, h4⟩ := ih
    cases ev <;> simp [h1, h2, h3, h4]

/-! ## Termination of a run -/

set_option maxHeartbeats 4000000 in
/-- The `try` block completes when the first call of `solveCaptcha` completes
and the second call completes or is not reached because the value bound to
`availableAppointments` is falsy. -/
theorem body_completes (fuel : Nat) (config : Config) (w : World) (s0 : State)
    (hc1 : captchaResult fuel w.captcha1 ≠ none)
    (hc2 : captchaResult fuel w.captcha2 ≠ none ∨
      ∃ anchors, w.evaluate = .ok anchors ∧ truthy (findLink anchors) = false) :
    ∃ rb sb, mainBody fuel config w s0 = some (rb, sb) := by
  unfold mainBody saveScreenshot
  simp only [Proc.bind_assoc, Proc.raise_bind, Proc.returnNow_bind, Proc.pure_bind]
  simp only [Proc.bind_solveCaptcha, Proc.bind_call, Proc.bind_emit, Proc.bind_assign,
    Proc.raise_apply, Proc.pure_apply, Proc.emit_apply, Proc.call_apply, State.push_push,
    List.singleton_append, List.cons_append, List.nil_append]
  repeat' (first
    | split
    | (simp only [Proc.bind_solveCaptcha, Proc.bind_call, Proc.bind_emit, Proc.bind_assign,
        Proc.raise_apply, Proc.returnNow_apply, Proc.pure_apply, Proc.emit_apply, Proc.call_apply,
        State.push_push, List.singleton_append, List.cons_append, List.nil_append]))
  all_goals first
    | exact ⟨_, _, rfl⟩
    | simp_all

/-- A run completes when the `try` block does. -/
theorem run_completes_of_body (fuel : Nat) (config : Config) (w : World)
    (hb : ∃ rb sb, mainBody fuel config w (State.push {} setupEvents) = some (rb, sb)) :
    ∃ r s, run fuel config w = some (r, s) := by
  obtain ⟨rb, sb, hb⟩ := hb
  unfold run main
  simp only [Proc.asFunction_apply, Proc.bind_call, Proc.bind_emit, State.push_push,
    List.singleton_append, List.cons_append, List.nil_append]
  have hs : State.push {} [Event.launch, Event.newPage, Event.setRequestInterception,
      Event.onRequest, Event.setUserAgent userAgent] = State.push {} setupEvents := rfl
  cases w.launch with
  | error e => exact ⟨_, _, rfl⟩
  | ok _ =>
  cases w.newPage with
  | error e => exact ⟨_, _, rfl⟩
  | ok _ =>
  cases w.setRequestInterception with
  | error e => exact ⟨_, _, rfl⟩
  | ok _ =>
  cases w.setUserAgent with
  | error e => exact ⟨_, _, rfl⟩
  | ok _ =>
  simp only [Proc.tryFinally_apply, Proc.tryCatch_apply, hs, hb]
  cases rb with
  | ok u =>
    simp only [Proc.call_apply]
    cases w.close <;> exact ⟨_, _, rfl⟩
  | error a =>
    cases a with
    | returned =>
      simp only [Proc.call_apply]
      cases w.close <;> exact ⟨_, _, rfl⟩
    | thrown e =>
      unfold mainHandler saveScreenshot
      simp only [Proc.bind_assoc, Proc.bind_call, Proc.bind_emit, Proc.bind_assign,
        Proc.call_apply, Proc.emit_apply, State.push_push]
      cases w.close <;> cases w.content <;> cases w.writeFile <;>
        cases w.screenshot "error_page.png" <;> exact ⟨_, _, rfl⟩

/-- A run completes when both calls of `solveCaptcha` do: apart from the
polling loop, nothing in the script can run for ever. -/
theorem run_completes (fuel : Nat) (config : Config) (w : World)
    (hc1 : captchaResult fuel w.captcha1 ≠ none) (hc2 : captchaResult fuel w.captcha2 ≠ none) :
    ∃ r s, run fuel config w = some (r, s) :=
  run_completes_of_body fuel config w (body_completes fuel config w _ hc1 (Or.inl hc2))

/-! ## Claims on the main flow -/

/-- C2, as amended: on every run in which the availability check finds no
anchor whose text contains 'Appointments are available', the driver calls
the screenshot 'no_appointments_available.png', types into no booking-form
field, makes no second call of `solveCaptcha` and no second click, and closes
the browser; when that screenshot does not throw, the run ends without
entering the error handler (and normally, when `browser.close()` does not
throw either); when it throws, the error handler is entered with its error.
Such a run terminates as soon as its first call of `solveCaptcha` does. -/
theorem no_appointments_run (fuel : Nat) (config : Config) (w : World)
    (anchors : List Anchor) (hev : w.evaluate = .ok anchors)
    (hno : ∀ a ∈ anchors, includes a.innerText "Appointments are available" = false) :
    (captchaResult fuel w.captcha1 ≠ none → ∃ r s, run fuel config w = some (r, s)) ∧
    ∀ r s, run fuel config w = some (r, s) → s.availableAppointments ≠ none →
      "no_appointments_available.png" ∈ screenshots s.trace ∧ typedFields s.trace = [] ∧
      s.finalCaptchaSuccess = none ∧ captchaCalls s.trace = 1 ∧
      clicks s.trace = [submitSelector] ∧ closes s.trace = 1 ∧
      (w.screenshot "no_appointments_available.png" = .ok () →
        s.caught = none ∧
        screenshots s.trace = ["process1.png", "process2.png", "no_appointments_available.png"] ∧
        (w.close = .ok () → r = .ok ())) ∧
      (∀ e, w.screenshot "no_appointments_available.png" = .error e → s.caught = some e) := by
  have hfl : truthy (findLink anchors) = false := by rw [findLink_none anchors hno]; rfl
  refine ⟨fun hc1 => run_completes_of_body fuel config w
    (body_completes fuel config w _ hc1 (Or.inr ⟨anchors, hev, hfl⟩)), ?_⟩
  intro r s h hreach
  rcases run_inv fuel config w r s h with ⟨t, _, rfl, _, _⟩ | ⟨rb, sb, hb, hfin⟩
  · simp at hreach
  · have hcaught := (body_captcha_failure fuel config w rb sb hb).1
    have hcl := (body_form fuel config w rb sb hb).2.1
    rcases hfin with ⟨e, rfl, rfl⟩ | ⟨hne, rfl, hr⟩
    · obtain ⟨_, h2, h3, h4, h5, _, h7, _, h9⟩ :=
        body_no_appointments fuel config w _ sb hb anchors hev (by simpa using hreach) hfl
      have ho := handlerEvents_observers w e
      have hk := handlerEvents_clicks w e
      cases hshot : w.screenshot "no_appointments_available.png" with
      | ok u => rw [hshot] at h9; simp at h9
      | error e2 =>
        rw [hshot] at h9
        simp only [Except.error.injEq, Abrupt.thrown.injEq] at h9
        subst h9
        simp [screenshots_append, typedFields_append, captchaCalls_append, clicks_append,
          closes_append, h2, h3, h4, h5, h7, hcl, ho, hk]
    · obtain ⟨_, h2, h3, h4, h5, _, h7, _, h9⟩ :=
        body_no_appointments fuel config w _ sb hb anchors hev (by simpa using hreach) hfl
      cases hshot : w.screenshot "no_appointments_available.png" with
      | ok u =>
        simp [h2, h3, h4, h5, h7, hcl, hcaught]
        exact hr
      | error e2 =>
        rw [hshot] at h9
        exact absurd h9 (hne e2)

/-- C4, as amended: the `page.type` calls of a run are always an initial
segment of the list lastname, firstname, email, emailrepeat, fields_0
(passport number), fields_1 (province), fields_2 (country), each with the
configured value unchanged, in that order and at most once; on a run that
reaches the booking form and in which no `page.type` call throws, they are
the whole list. -/
theorem form_filled_in_order (fuel : Nat) (config : Config) (w : World)
    (r : Except Abrupt Unit) (s : State) (h : run fuel config w = some (r, s)) :
    typedFields s.trace <+: expectedForm config ∧
    (Event.consoleLog ["Filling out the appointment booking form..."] ∈ s.trace →
      (∀ selector, w.pageType selector = .ok ()) → typedFields s.trace = expectedForm config) := by
  rcases run_inv fuel config w r s h with ⟨t, ht, rfl, _, _⟩ | ⟨rb, sb, hb, hfin⟩
  · have hmem : ∀ ev ∈ t, ev ∈ setupEvents := fun ev hev => ht.subset hev
    have hnil : typedFields t = [] := by
      obtain ⟨u, hu⟩ := ht
      have h0 : typedFields setupEvents = [] := by simp [setupEvents]
      rw [← hu, typedFields_append] at h0
      exact (List.append_eq_nil.mp h0).1
    constructor
    · simp [State.push, hnil]
    · intro hin
      have := hmem _ (by simpa [State.push] using hin)
      simp [setupEvents] at this
  · obtain ⟨h1, _, h3⟩ := body_form fuel config w rb sb hb
    rcases hfin with ⟨e, rfl, rfl⟩ | ⟨hne, rfl, hr⟩
    · have ho := handlerEvents_observers w e
      constructor
      · simpa [typedFields_append, ho] using h1
      · intro hin hall
        have hin2 : Event.consoleLog ["Filling out the appointment booking form..."] ∈ sb.trace := by
          simp only [State.push_trace, List.mem_append] at hin
          rcases hin with hin | hin
          · exact hin
          · exact absurd (List.mem_append.mpr hin) ho.2.2.2.2.1
        simpa [typedFields_append, ho] using h3 hin2 hall
    · constructor
      · simpa using h1
      · intro hin hall
        have hin2 : Event.consoleLog ["Filling out the appointment booking form..."] ∈ sb.trace := by
          simpa using hin
        simpa using h3 hin2 hall

/-- C5, as amended: on any exception raised in the `try` block of the main
flow, whichever step raised it, provided `page.content()`, the write of the
dump and the screenshot of the handler do not themselves throw, the run ends
with: the error logged, the page's markup read and written to
'error_page.html', the screenshot 'error_page.png', and only then the one
call of `browser.close()`. -/
theorem error_artifacts_before_close (fuel : Nat) (config : Config) (w : World)
    (r : Except Abrupt Unit) (s : State) (h : run fuel config w = some (r, s))
    (e : String) (hcaught : s.caught = some e)
    (html : String) (hcontent : w.content = .ok html) (hwrite : w.writeFile = .ok ())
    (hshot : w.screenshot "error_page.png" = .ok ()) :
    ∃ pre, s.trace = pre ++
        [.consoleError "Error during the process:" e, .content,
         .writeFileSync "error_page.html" html, .pageScreenshot "error_page.png",
         .consoleLog ["Screenshot saved as error_page.png"], .close] ∧
      closes pre = 0 := by
  rcases run_inv fuel config w r s h with ⟨t, _, rfl, _, _⟩ | ⟨rb, sb, hb, hfin⟩
  · simp at hcaught
  · have hc0 := (body_captcha_failure fuel config w rb sb hb).1
    have hcl := (body_form fuel config w rb sb hb).2.1
    rcases hfin with ⟨e2, rfl, rfl⟩ | ⟨hne, rfl, hr⟩
    · simp only [State.push_caught, Option.some.injEq] at hcaught
      subst hcaught
      refine ⟨sb.trace, ?_, hcl⟩
      simp [handlerEvents, hcontent, hwrite, hshot]
    · simp [hc0] at hcaught

/-- On every run in which the four calls before the `try` block succeed,
`browser.close()` is called exactly once and is the last call of the run. -/
theorem browser_closed_after_setup (fuel : Nat) (config : Config) (w : World)
    (r : Except Abrupt Unit) (s : State) (h : run fuel config w = some (r, s))
    (h1 : w.launch = .ok ()) (h2 : w.newPage = .ok ()) (h3 : w.setRequestInterception = .ok ())
    (h4 : w.setUserAgent = .ok ()) :
    closes s.trace = 1 ∧ s.trace.getLast? = some .close := by
  rcases run_inv fuel config w r s h with ⟨t, _, rfl, _, e, he⟩ | ⟨rb, sb, hb, hfin⟩
  · simp [h1, h2, h3, h4] at he
  · have hcl := (body_form fuel config w rb sb hb).2.1
    rcases hfin with ⟨e2, rfl, rfl⟩ | ⟨hne, rfl, _⟩
    · have ho := handlerEvents_observers w e2
      constructor
      · simp [closes_append, hcl] at ho ⊢
        exact ho.2.2.2.1
      · simp [← List.append_assoc]
    · constructor
      · simp [hcl]
      · simp

/-- C6, at the failing input: `puppeteer.launch` succeeds and
`browser.newPage()` throws; the run ends with an unhandled rejection after
the two calls `launch` and `newPage`, and `browser.close()` is never called. -/
theorem new_page_failure_leaks_browser :
    newPageFailWorld.launch = .ok () ∧
    ∃ r s, run 0 janeDoe newPageFailWorld = some (r, s) ∧
      r = .error (.thrown "Protocol error (Target.createTarget): Target closed.") ∧
      s.trace = [.launch, .newPage] ∧ closes s.trace = 0 :=
  ⟨rfl, _, _, rfl, rfl, rfl, rfl⟩

/-- C8: on a run where the availability link is present, both calls of
`solveCaptcha` return true and no step of the flow throws, the steps are made in the
listed order: the page screenshots are process1.png, process2.png,
appointments_available.png, process3.png, process4.png; the seven fields are
typed with the configured values; the second click on the submit control
comes once, after the seven fields and after the text of the second CAPTCHA
was typed; neither 'error_page.html' nor 'error_page.png' is written; the
browser is closed last. -/
theorem successful_run_in_order (fuel : Nat) (config : Config) (w : World)
    (r : Except Abrupt Unit) (s : State) (h : run fuel config w = some (r, s))
    (hlink : ∃ href, s.availableAppointments = some (some href))
    (hfirst : s.captchaSuccess = some true) (hfinal : s.finalCaptchaSuccess = some true)
    (hcaught : s.caught = none) :
    screenshots s.trace =
      ["process1.png", "process2.png", "appointments_available.png", "process3.png",
       "process4.png"] ∧
    typedFields s.trace = expectedForm config ∧
    clicks s.trace = [submitSelector, submitSelector] ∧
    ∃ href text1 text2, s.availableAppointments = some (some href) ∧
      milestones s.trace =
        [.goto startUrl, .pageScreenshot "process1.png", .elementType text1,
         .click submitSelector, .pageScreenshot "process2.png", .goto href,
         .pageScreenshot "appointments_available.png",
         .pageType "#appointment_newAppointmentForm_lastname" config.lastname,
         .pageType "#appointment_newAppointmentForm_firstname" config.firstname,
         .pageType "#appointment_newAppointmentForm_email" config.email,
         .pageType "#appointment_newAppointmentForm_emailrepeat" config.email,
         .pageType "#appointment_newAppointmentForm_fields_0__content" config.passportNumber,
         .pageType "#appointment_newAppointmentForm_fields_1__content" config.province,
         .pageType "#appointment_newAppointmentForm_fields_2__content" config.country,
         .pageScreenshot "process3.png", .elementType text2, .click submitSelector,
         .pageScreenshot "process4.png", .close] := by
  rcases run_inv fuel config w r s h with ⟨t, _, rfl, _, _⟩ | ⟨rb, sb, hb, hfin⟩
  · simp at hfirst
  · rcases hfin with ⟨e2, rfl, rfl⟩ | ⟨hne, rfl, _⟩
    · simp at hcaught
    · obtain ⟨_, _, href, text1, text2, hav, _, hm⟩ :=
        body_success fuel config w rb sb hb (by simpa using hfinal) hne
      have hm2 : milestones (sb.push [.close]).trace = milestones sb.trace ++ [.close] := by
        simp
      rw [hm] at hm2
      have hobs := milestones_observers (sb.push [.close]).trace
      rw [hm2] at hobs
      refine ⟨?_, ?_, ?_, href, text1, text2, by simpa using hav, hm2⟩
      · rw [← hobs.1]; simp
      · rw [← hobs.2.1]; simp [expectedForm]
      · rw [← hobs.2.2.1]; simp

/-- C9, as amended: the branch is decided by the address of the first anchor
whose text contains 'Appointments are available': when that address is not
empty, the driver navigates to it and, when the navigation and its screenshot
do not throw, goes on to the booking form; when no anchor has the text, or
the first such anchor has an empty address, the driver navigates nowhere,
logs 'No appointments available.', takes the screenshot
'no_appointments_available.png', types nothing and, when that screenshot does
not throw, ends without entering the error handler (normally, when
`browser.close()` does not throw); such a run terminates as soon as its first
call of `solveCaptcha` does. -/
theorem availability_branch (fuel : Nat) (config : Config) (w : World)
    (anchors : List Anchor) (hev : w.evaluate = .ok anchors) :
    (∀ pre a post, anchors = pre ++ a :: post →
      (∀ b ∈ pre, includes b.innerText "Appointments are available" = false) →
      includes a.innerText "Appointments are available" = true → a.href ≠ "" →
      ∀ r s, run fuel config w = some (r, s) → s.availableAppointments ≠ none →
        gotos s.trace = [startUrl, a.href] ∧
        Event.consoleLog ["No appointments available."] ∉ s.trace ∧
        (w.gotoAvailable = .ok () → w.screenshot "appointments_available.png" = .ok () →
          Event.consoleLog ["Filling out the appointment booking form..."] ∈ s.trace)) ∧
    (((∀ a ∈ anchors, includes a.innerText "Appointments are available" = false) ∨
      ∃ pre a post, anchors = pre ++ a :: post ∧
        (∀ b ∈ pre, includes b.innerText "Appointments are available" = false) ∧
        includes a.innerText "Appointments are available" = true ∧ a.href = "") →
      (captchaResult fuel w.captcha1 ≠ none → ∃ r s, run fuel config w = some (r, s)) ∧
      ∀ r s, run fuel config w = some (r, s) → s.availableAppointments ≠ none →
        gotos s.trace = [startUrl] ∧ typedFields s.trace = [] ∧
        Event.consoleLog ["No appointments available."] ∈ s.trace ∧
        "no_appointments_available.png" ∈ screenshots s.trace ∧
        (w.screenshot "no_appointments_available.png" = .ok () →
          s.caught = none ∧ (w.close = .ok () → r = .ok ()))) := by
  constructor
  · intro pre a post hanch hpre ha hhref r s h hreach
    rcases run_inv fuel config w r s h with ⟨t, _, rfl, _, _⟩ | ⟨rb, sb, hb, hfin⟩
    · simp at hreach
    · have hreach2 : sb.availableAppointments ≠ none := by
        rcases hfin with ⟨e, rfl, rfl⟩ | ⟨hne, rfl, hr⟩ <;> simpa using hreach
      have hfl : findLink anchors = some a.href := by
        rw [hanch]; exact findLink_first pre post a hpre ha
      have htr : truthy (findLink anchors) = true := by simp [hfl, truthy, hhref]
      obtain ⟨_, hg, hnl, hfill⟩ := body_available fuel config w rb sb hb anchors hev hreach2 htr
      rw [hfl] at hg
      rcases hfin with ⟨e, rfl, rfl⟩ | ⟨hne, rfl, hr⟩
      · have ho := handlerEvents_observers w e
        refine ⟨by simpa [gotos_append, ho] using hg, ?_, fun hx hy => ?_⟩
        · intro hx
          simp only [State.push_trace] at hx
          rcases List.mem_append.mp hx with hx | hx
          · exact hnl hx
          · exact ho.2.2.2.2.2 hx
        · simp only [State.push_trace, List.mem_append]
          exact Or.inl (hfill hx hy)
      · refine ⟨by simpa using hg, by simpa using hnl, fun hx hy => ?_⟩
        simpa using hfill hx hy
  · intro hcase
    have hfl : truthy (findLink anchors) = false := by
      rcases hcase with hno | ⟨pre, a, post, hanch, hpre, ha, hhref⟩
      · rw [findLink_none anchors hno]; rfl
      · rw [hanch, findLink_first pre post a hpre ha, hhref]; rfl
    refine ⟨fun hc1 => run_completes_of_body fuel config w
      (body_completes fuel config w _ hc1 (Or.inr ⟨anchors, hev, hfl⟩)), ?_⟩
    intro r s h hreach
    rcases run_inv fuel config w r s h with ⟨t, _, rfl, _, _⟩ | ⟨rb, sb, hb, hfin⟩
    · simp at hreach
    · have hc0 := (body_captcha_failure fuel config w rb sb hb).1
      have hreach2 : sb.availableAppointments ≠ none := by
        rcases hfin with ⟨e, rfl, rfl⟩ | ⟨hne, rfl, hr⟩ <;> simpa using hreach
      obtain ⟨_, _, h3, _, _, h6, h7, h8, h9⟩ :=
        body_no_appointments fuel config w rb sb hb anchors hev hreach2 hfl
      rcases hfin with ⟨e, rfl, rfl⟩ | ⟨hne, rfl, hr⟩
      · have ho := handlerEvents_observers w e
        refine ⟨by simp [gotos_append, ho, h6], by simp [typedFields_append, ho, h3],
          by simp [h8], by simp [screenshots_append, h7], fun hx => ?_⟩
        rw [hx] at h9
        simp at h9
      · refine ⟨by simp [h6], by simp [h3], by simp [h8],
          by simp [h7], fun hx => ⟨by simpa using hc0, hr⟩⟩

/-! ## The claims at sample runs -/

/-- C1 at two runs: the image of the first CAPTCHA never appears, and the
image of the second CAPTCHA never appears. -/
theorem captcha_failure_aborts_run_witness :
    (∃ r s, run 0 janeDoe captchaFailWorld = some (r, s) ∧ s.captchaSuccess = some false ∧
      ∃ pre tc post, captchaResult 0 captchaFailWorld.captcha1 = some (.ok false, tc) ∧
        s.trace = pre ++ tc ++ post ∧ clicks post = [] ∧
        .consoleError "Error during the process:" "Failed to solve CAPTCHA." ∈ post ∧
        s.caught = some "Failed to solve CAPTCHA.") ∧
    (∃ r s, run 3 janeDoe finalCaptchaFailWorld = some (r, s) ∧
      s.finalCaptchaSuccess = some false ∧
      ∃ pre tc post, captchaResult 3 finalCaptchaFailWorld.captcha2 = some (.ok false, tc) ∧
        s.trace = pre ++ tc ++ post ∧ clicks post = [] ∧
        .consoleError "Error during the process:" "Failed to solve final CAPTCHA." ∈ post ∧
        s.caught = some "Failed to solve final CAPTCHA.") :=
  ⟨⟨_, _, rfl, rfl, (captcha_failure_aborts_run 0 janeDoe captchaFailWorld _ _ rfl).1 rfl⟩,
   ⟨_, _, rfl, rfl, (captcha_failure_aborts_run 3 janeDoe finalCaptchaFailWorld _ _ rfl).2 rfl⟩⟩

/-- C2 as stated fails: no anchor has the availability text, the screenshot
'no_appointments_available.png' throws, and the run enters the error
handler. -/
theorem no_appointments_screenshot_failure :
    ∃ r s, run 3 janeDoe noLinkShotFailWorld = some (r, s) ∧
      noLinkShotFailWorld.evaluate =
        .ok [{ innerText := "Imprint", href := "https://service2.diplo.de/imprint" }] ∧
      includes "Imprint" "Appointments are available" = false ∧
      s.availableAppointments = some none ∧
      s.caught = some "ENOSPC: no space left on device" ∧
      Event.consoleError "Error during the process:" "ENOSPC: no space left on device" ∈ s.trace ∧
      screenshots s.trace =
        ["process1.png", "process2.png", "no_appointments_available.png", "error_page.png"] :=
  ⟨_, _, rfl, rfl, by decide, rfl, rfl, by decide, by decide⟩

/-- C2, as amended, at a run without the availability link. -/
theorem no_appointments_run_witness :
    ∃ r s, run 3 janeDoe noLinkWorld = some (r, s) ∧ s.availableAppointments = some none ∧
      typedFields s.trace = [] ∧ s.finalCaptchaSuccess = none ∧ captchaCalls s.trace = 1 ∧
      clicks s.trace = [submitSelector] ∧ closes s.trace = 1 ∧ s.caught = none ∧ r = .ok () :=
  have hrun := (no_appointments_run 3 janeDoe noLinkWorld
    [{ innerText := "Imprint", href := "https://service2.diplo.de/imprint" }] rfl
    (by decide)).2 _ _ rfl (by decide)
  ⟨_, _, rfl, rfl, hrun.2.1, hrun.2.2.1, hrun.2.2.2.1, hrun.2.2.2.2.1, hrun.2.2.2.2.2.1,
    (hrun.2.2.2.2.2.2.1 rfl).1, (hrun.2.2.2.2.2.2.1 rfl).2.2 rfl⟩

/-- C3 at a service that is ready at its third response. -/
theorem solveCaptcha_types_first_ready_text_witness :
    ∃ s1, solveCaptcha 3 readyEnv {} = some (.ok true, s1) ∧
      ∃ tc, s1 = State.push {} tc ∧
        ∃ k r sol, FirstReady readyEnv k r ∧ r.solution = some sol ∧
          captchaTexts tc = [sol.text] ∧ (taskRequests tc).length = k + 1 :=
  have hrun := solveCaptcha_types_first_ready_text 3 readyEnv {} (.ok true) _ rfl
  ⟨_, rfl, hrun.choose, hrun.choose_spec.1, hrun.choose_spec.2.1 rfl⟩

/-- C4 as stated fails: the run reaches the booking form, the first
`page.type` throws, and the six other fields are never typed. -/
theorem form_not_filled_after_type_failure :
    ∃ r s, run 3 janeDoe typeFailWorld = some (r, s) ∧
      Event.consoleLog ["Filling out the appointment booking form..."] ∈ s.trace ∧
      typedFields s.trace = [("#appointment_newAppointmentForm_lastname", "Doe")] ∧
      typedFields s.trace ≠ expectedForm janeDoe :=
  ⟨_, _, rfl, by decide, by decide, by decide⟩

/-- C4, as amended, at the run in which every call succeeds. -/
theorem form_filled_in_order_witness :
    ∃ r s, run 3 janeDoe okWorld = some (r, s) ∧
      Event.consoleLog ["Filling out the appointment booking form..."] ∈ s.trace ∧
      (∀ selector, okWorld.pageType selector = .ok ()) ∧
      typedFields s.trace = expectedForm janeDoe :=
  ⟨_, _, rfl, by decide, fun _ => rfl,
    (form_filled_in_order 3 janeDoe okWorld _ _ rfl).2 (by decide) (fun _ => rfl)⟩

/-- C5 as stated fails: the first navigation throws, `page.content()` throws
in the handler, and the browser is closed with neither the dump nor the
screenshot. -/
theorem error_artifacts_missing :
    ∃ r s, run 0 janeDoe crashedPageWorld = some (r, s) ∧
      s.caught = some "Navigation failed because page crashed!" ∧
      milestones s.trace = [.goto startUrl, .close] ∧ screenshots s.trace = [] :=
  ⟨_, _, rfl, rfl, by decide, by decide⟩

/-- C5, as amended, at the run in which the second CAPTCHA is not solved. -/
theorem error_artifacts_before_close_witness :
    ∃ r s, run 3 janeDoe finalCaptchaFailWorld = some (r, s) ∧
      s.caught = some "Failed to solve final CAPTCHA." ∧
      ∃ pre, s.trace = pre ++
          [.consoleError "Error during the process:" "Failed to solve final CAPTCHA.", .content,
           .writeFileSync "error_page.html" "<html></html>", .pageScreenshot "error_page.png",
           .consoleLog ["Screenshot saved as error_page.png"], .close] ∧
        closes pre = 0 :=
  ⟨_, _, rfl, rfl,
    error_artifacts_before_close 3 janeDoe finalCaptchaFailWorld _ _ rfl
      "Failed to solve final CAPTCHA." rfl "<html></html>" rfl rfl rfl⟩

/-- The browser is closed once, last, at the run in which the first CAPTCHA
is not solved. -/
theorem browser_closed_after_setup_witness :
    ∃ r s, run 0 janeDoe captchaFailWorld = some (r, s) ∧ closes s.trace = 1 ∧
      s.trace.getLast? = some .close :=
  ⟨_, _, rfl, browser_closed_after_setup 0 janeDoe captchaFailWorld _ _ rfl rfl rfl rfl rfl⟩

/-- C7 as stated fails: on a service that answers `processing` for ever,
`solveCaptcha` never completes, whatever the fuel. -/
theorem solveCaptcha_hangs : ¬ ∃ fuel res s1, solveCaptcha fuel hangEnv {} = some (res, s1) := by
  rintro ⟨fuel, res, s1, h⟩
  obtain ⟨tc, hc, _⟩ := solveCaptcha_result fuel hangEnv {} res s1 h
  have hnone : firstStop hangEnv fuel = none :=
    firstStop_eq_none hangEnv fuel fun j _ => by simp [hangEnv, Retries]
  rw [captchaResult_eq, hnone] at hc
  simp [hangEnv, readyEnv] at hc

/-- C7, as amended, at five services: ready at the third response, image
missing, task rejected, unreachable from the start, unreachable at the second
poll. -/
theorem solveCaptcha_returns_boolean_witness :
    (∃ s1, solveCaptcha 3 readyEnv {} = some (.ok true, s1)) ∧
    (∃ tc, solveCaptcha 3 noImageEnv {} = some (.ok false, State.push {} tc) ∧
      captchaTexts tc = [] ∧ taskRequests tc = []) ∧
    (∃ tc, solveCaptcha 3 rejectedTaskEnv {} = some (.ok false, State.push {} tc) ∧
      captchaTexts tc = [] ∧ taskRequests tc = []) ∧
    (∃ tc, solveCaptcha 3 createTaskErrorEnv {} = some (.ok false, State.push {} tc) ∧
      captchaTexts tc = [] ∧ taskRequests tc = []) ∧
    (∃ tc, solveCaptcha 3 pollErrorEnv {} = some (.ok false, State.push {} tc) ∧
      captchaTexts tc = []) :=
  ⟨⟨_, rfl⟩,
   (solveCaptcha_returns_boolean 3 noImageEnv {}).2.2.1 _ rfl,
   (solveCaptcha_returns_boolean 3 rejectedTaskEnv {}).2.2.2.1 _ rfl (by decide),
   (solveCaptcha_returns_boolean 3 createTaskErrorEnv {}).2.2.2.2.1 _ rfl,
   (solveCaptcha_returns_boolean 3 pollErrorEnv {}).2.2.2.2.2 1 "ECONNRESET" (by decide)
     (fun j hj => by
       have hj0 : j = 0 := by omega
       subst hj0
       simp [pollErrorEnv, Retries])
     rfl⟩

/-- C8 at the end-to-end scenario: every call succeeds and the availability
link is present. -/
theorem successful_run_in_order_witness :
    ∃ r s, run 3 janeDoe okWorld = some (r, s) ∧
      s.availableAppointments = some (some "https://service2.diplo.de/book") ∧
      s.captchaSuccess = some true ∧ s.finalCaptchaSuccess = some true ∧ s.caught = none ∧
      screenshots s.trace =
        ["process1.png", "process2.png", "appointments_available.png", "process3.png",
         "process4.png"] ∧
      typedFields s.trace = expectedForm janeDoe ∧
      clicks s.trace = [submitSelector, submitSelector] :=
  have hrun := successful_run_in_order 3 janeDoe okWorld _ _ rfl ⟨_, rfl⟩ rfl rfl rfl
  ⟨_, _, rfl, rfl, rfl, rfl, rfl, hrun.1, hrun.2.1, hrun.2.2.1⟩

/-- C9 as stated fails: an anchor has the availability text and an empty
address; the driver logs 'No appointments available.', navigates nowhere and
types nothing. -/
theorem link_present_without_address :
    ∃ r s, run 3 janeDoe emptyHrefWorld = some (r, s) ∧
      emptyHrefWorld.evaluate = .ok [{ innerText := "Appointments are available", href := "" }] ∧
      includes "Appointments are available" "Appointments are available" = true ∧
      s.availableAppointments = some (some "") ∧
      Event.consoleLog ["No appointments available."] ∈ s.trace ∧
      gotos s.trace = [startUrl] ∧ typedFields s.trace = [] ∧ r = .ok () :=
  ⟨_, _, rfl, rfl, by decide, rfl, by decide, by decide, by decide, rfl⟩

/-- C9, as amended, at a page with the link and at a page without it. -/
theorem availability_branch_witness :
    (∃ r s, run 3 janeDoe okWorld = some (r, s) ∧
      gotos s.trace = [startUrl, "https://service2.diplo.de/book"] ∧
      Event.consoleLog ["Filling out the appointment booking form..."] ∈ s.trace) ∧
    (∃ r s, run 3 janeDoe noLinkWorld = some (r, s) ∧
      gotos s.trace = [startUrl] ∧ typedFields s.trace = [] ∧ s.caught = none) :=
  have hyes := (availability_branch 3 janeDoe okWorld _ rfl).1
    [{ innerText := "Imprint", href := "https://service2.diplo.de/imprint" }]
    { innerText := "Appointments are available", href := "https://service2.diplo.de/book" } []
    rfl (by decide) (by decide) (by decide) _ _ rfl (by decide)
  have hno := ((availability_branch 3 janeDoe noLinkWorld _ rfl).2
    (Or.inl (by decide))).2 _ _ rfl (by decide)
  ⟨⟨_, _, rfl, hyes.1, hyes.2.2 rfl rfl⟩, ⟨_, _, rfl, hno.1, hno.2.1, (hno.2.2.2.2 rfl).1⟩⟩

/-- C10 at a service that is ready at its third response, and at one that
answers `processing` for ever. -/
theorem pollLoop_until_ready_witness :
    pollLoop readyEnv "7" 3 0 {} =
      some (.ok { status := some "ready", solution := some { text := some "AB12" } },
        State.push {} (pollEvents "7" 3)) ∧
    pollLoop readyEnv "7" 2 0 {} = none ∧
    pollLoop hangEnv "7" 100 0 {} = none :=
  have hready : FirstReady readyEnv 2
      { status := some "ready", solution := some { text := some "AB12" } } := by decide
  ⟨((pollLoop_until_ready readyEnv "7" {}).1 2 _ hready).1 3 (by decide),
   ((pollLoop_until_ready readyEnv "7" {}).1 2 _ hready).2.1 2 (by decide),
   (pollLoop_until_ready hangEnv "7" {}).2 (fun j => by simp [hangEnv, Retries]) 100⟩

end AppointmentBot
